import Mathlib

/-!
# Koordinator runtime proxy: resource merges, version adapter, interception

A shallow embedding of `pkg/runtimeproxy/resexecutor/cri/utils.go`, of the
interception pipeline and the startup of
`pkg/runtimeproxy/server/cri/criserver.go`, and of `MinResourceList` of
`pkg/util/resource.go`.

Modelling conventions.

* A Go pointer `*T` that a function only tests against `nil`, reads and
  writes through, and returns, is an `Option T`: `none` is the nil pointer and
  `some r` is a pointer to a record whose content is `r`.  A function that
  mutates `*a` in place and returns `a` is embedded as the function that
  returns the content `a` points to after the call.
* Go `int64` fields are `Int`.  The merges only compare them with constants
  and copy them, so no arithmetic can overflow.
* Go `map[string]string` is a finite map with unique keys.  A nil map and an
  empty map hold the same entries and are both the empty finite map.
-/

namespace Koordinator

/-! ## Data model -/

/-- Go `map[string]string`: a finite map from strings to strings. -/
abbrev StringMap := Finmap (fun _ : String => String)

/-- Message `v1alpha1.HugepageLimit`: `PageSize string`, `Limit uint64`. -/
structure HugepageLimit where
  PageSize : String
  Limit : Nat
deriving DecidableEq

/-- Message `v1alpha1.LinuxContainerResources`, the resource envelope.  The
fields are those read and written by `utils.go` (lines 32-48 and 79-101). -/
structure LinuxContainerResources where
  CpuPeriod : Int
  CpuQuota : Int
  CpuShares : Int
  MemoryLimitInBytes : Int
  OomScoreAdj : Int
  CpusetCpus : String
  CpusetMems : String
  HugepageLimits : List HugepageLimit
  Unified : StringMap
  MemorySwapLimitInBytes : Int
deriving DecidableEq

/-! ## Resource merges -/

/-- Modelled from the spec: `utils.MergeMap` of package
`pkg/runtimeproxy/utils` is called by both merges but is not among the source
files.  Spec 4.B.3: "map merge; keys present in `b` overwrite keys in `a`, keys
unique to `a` survive".  The union of finite maps is biased to its left
operand, so `b` goes first. -/
def MergeMap (a b : StringMap) : StringMap := b ∪ a

/-- Embedding of `updateResource` (utils.go lines 75-103), statement by
statement; each shadowed `a` is the content of `*a` after the assignment. -/
def updateResource (a b : Option LinuxContainerResources) :
    Option LinuxContainerResources :=
  match a, b with
  | some a, some b =>
    let a := if b.CpuPeriod > 0 then { a with CpuPeriod := b.CpuPeriod } else a
    let a := if b.CpuQuota ≠ 0 then { a with CpuQuota := b.CpuQuota } else a
    let a := if b.CpuShares > 0 then { a with CpuShares := b.CpuShares } else a
    let a := if b.MemoryLimitInBytes > 0 then
      { a with MemoryLimitInBytes := b.MemoryLimitInBytes } else a
    let a := if b.OomScoreAdj ≥ -1000 ∧ b.OomScoreAdj ≤ 1000 then
      { a with OomScoreAdj := b.OomScoreAdj } else a
    let a := { a with CpusetCpus := b.CpusetCpus }
    let a := { a with CpusetMems := b.CpusetMems }
    let a := { a with Unified := MergeMap a.Unified b.Unified }
    let a := if b.MemorySwapLimitInBytes > 0 then
      { a with MemorySwapLimitInBytes := b.MemorySwapLimitInBytes } else a
    some a
  | a, _ => a

/-- Embedding of `updateResourceByUpdateContainerResourceRequest` (utils.go
lines 110-137), statement by statement. -/
def updateResourceByUpdateContainerResourceRequest
    (a b : Option LinuxContainerResources) : Option LinuxContainerResources :=
  match a, b with
  | some a, some b =>
    let a := if b.CpuPeriod > 0 then { a with CpuPeriod := b.CpuPeriod } else a
    let a := if b.CpuQuota ≠ 0 then { a with CpuQuota := b.CpuQuota } else a
    let a := if b.CpuShares > 0 then { a with CpuShares := b.CpuShares } else a
    let a := if b.MemoryLimitInBytes > 0 then
      { a with MemoryLimitInBytes := b.MemoryLimitInBytes } else a
    let a := if b.CpusetCpus ≠ "" then { a with CpusetCpus := b.CpusetCpus } else a
    let a := if b.CpusetMems ≠ "" then { a with CpusetMems := b.CpusetMems } else a
    let a := { a with Unified := MergeMap a.Unified b.Unified }
    let a := if b.MemorySwapLimitInBytes > 0 then
      { a with MemorySwapLimitInBytes := b.MemorySwapLimitInBytes } else a
    some a
  | a, _ => a

/-- The stored envelope `a` of the "normal case" of `Test_updateResource`. -/
def testStored : LinuxContainerResources where
  CpuPeriod := 1000
  CpuQuota := 2000
  CpuShares := 500
  MemoryLimitInBytes := 300
  OomScoreAdj := 10
  CpusetCpus := "0-64"
  CpusetMems := "0-2"
  HugepageLimits := []
  Unified := Finmap.singleton "resourceA" "resource A"
  MemorySwapLimitInBytes := 100

/-- The proposed envelope `b` of the "normal case" of `Test_updateResource`. -/
def testProposed : LinuxContainerResources where
  CpuPeriod := 2000
  CpuQuota := 4000
  CpuShares := 1000
  MemoryLimitInBytes := 600
  OomScoreAdj := 20
  CpusetCpus := "0-31"
  CpusetMems := "0-4"
  HugepageLimits := []
  Unified := Finmap.singleton "resourceB" "resource B"
  MemorySwapLimitInBytes := 200

/-- The zero value of the message: every scalar `0`, every string empty, no
hugepage limit, no unified entry.  An unset field of a request reads as this. -/
def zeroResources : LinuxContainerResources where
  CpuPeriod := 0
  CpuQuota := 0
  CpuShares := 0
  MemoryLimitInBytes := 0
  OomScoreAdj := 0
  CpusetCpus := ""
  CpusetMems := ""
  HugepageLimits := []
  Unified := ∅
  MemorySwapLimitInBytes := 0

/-! ## Go types as seen through `reflect`

`IsV1Type` and `IsV1alpha2Type` read three things of the dynamic type of their
argument: whether `Kind()` is `reflect.Ptr`, `Elem()`, and `PkgPath()`. -/

/-- The result of `reflect.Type.Kind()`, as far as the code distinguishes it. -/
inductive Kind where
  | Ptr
  | Other
deriving DecidableEq

/-- A Go type.  `nonPtr p n` is a type of non-pointer kind named `n` and
declared in the package of import path `p`; a predeclared type (`int`) or a type
that is not defined (`struct{}`, `[]int`) has `p = ""`.  `ptr p n e` is a type
of pointer kind with element type `e`: the pointer type `*e` is `ptr "" "" e`,
and a defined type `type n *e` declared in package `p` is `ptr p n e`. -/
inductive GoType where
  | nonPtr (pkgPath : String) (name : String)
  | ptr (pkgPath : String) (name : String) (elem : GoType)
deriving DecidableEq

/-- Method `reflect.Type.Kind()`. -/
def GoType.Kind : GoType → Kind
  | .nonPtr _ _ => .Other
  | .ptr _ _ _ => .Ptr

/-- Method `reflect.Type.Elem()`.  Go panics when the kind has no element
type; the code calls it only after `Kind() == reflect.Ptr`, and the embedding
returns the type itself in the case that is never reached. -/
def GoType.Elem : GoType → GoType
  | .nonPtr p n => .nonPtr p n
  | .ptr _ _ e => e

/-- Method `reflect.Type.PkgPath()`: the import path of the package that
declares the type, `""` for a predeclared or not defined type. -/
def GoType.PkgPath : GoType → String
  | .nonPtr p _ => p
  | .ptr p _ _ => p

/-- A Go `interface{}` value: untyped `nil`, or a dynamic type together with
whether the value held is a nil pointer (read by `reflect.Value.IsNil`, only
meaningful for pointer kinds). -/
inductive Iface where
  | nil
  | typed (t : GoType) (isNil : Bool)
deriving DecidableEq

/-- Type `v1.AttachRequest`, imported from `k8s.io/cri-api/pkg/apis/runtime/v1`
(utils.go line 24). -/
def v1AttachRequest : GoType :=
  .nonPtr "k8s.io/cri-api/pkg/apis/runtime/v1" "AttachRequest"

/-- Type `v1alpha2.AttachRequest`, imported from
`k8s.io/cri-api/pkg/apis/runtime/v1alpha2` (utils.go line 25). -/
def v1alpha2AttachRequest : GoType :=
  .nonPtr "k8s.io/cri-api/pkg/apis/runtime/v1alpha2" "AttachRequest"

/-- Variable `v1PkgPath` (utils.go line 208). -/
def v1PkgPath : String := v1AttachRequest.PkgPath

/-- Variable `v1alpha2PkgPath` (utils.go line 209). -/
def v1alpha2PkgPath : String := v1alpha2AttachRequest.PkgPath

/-- Embedding of `IsV1Type` (utils.go lines 317-328). -/
def IsV1Type (x : Iface) : Bool :=
  match x with
  | .nil => false
  | .typed t _ =>
    let inType := t
    let inType := if inType.Kind = Kind.Ptr then inType.Elem else inType
    inType.PkgPath == v1PkgPath

/-- Embedding of `IsV1alpha2Type` (utils.go lines 331-342). -/
def IsV1alpha2Type (x : Iface) : Bool :=
  match x with
  | .nil => false
  | .typed t _ =>
    let inType := t
    let inType := if inType.Kind = Kind.Ptr then inType.Elem else inType
    inType.PkgPath == v1alpha2PkgPath

/-- The unnamed pointer type `*t`. -/
def GoType.pointerTo (t : GoType) : GoType := .ptr "" "" t

/-- The type `struct{}` of the "cutom type" cases of `Test_IsV1Type`. -/
def emptyStruct : GoType := .nonPtr "" "struct \x7b\x7d"

/-! ## Version adapter -/

/-- A Go `error` value, by the statement that builds it: `errors.New(msg)` or
an error handed over by a collaborator (`msg`), the two formatted errors of
`V1alpha2ToV1` that print the type of the input, and
`fmt.Errorf("hook server err: %v", err)` of the interception pipeline. -/
inductive GoError where
  | msg (text : String)
  | notV1alpha2 (t : GoType)
  | undefinedConversion (t : GoType)
  | hookServer (cause : GoError)
deriving DecidableEq

/-- The message type named `n` of the CRI v1 package. -/
def v1Type (n : String) : GoType := .nonPtr v1PkgPath n

/-- The message type named `n` of the CRI v1alpha2 package. -/
def v1alpha2Type (n : String) : GoType := .nonPtr v1alpha2PkgPath n

/-- The entries of the map literal `typeMapper` (utils.go lines 211-276), in
source order; the key `v1alpha2.AttachRequest` is written twice there, with the
same value. -/
def typeMapperEntries : List (GoType × GoType) :=
  [
    (v1alpha2Type "AttachRequest", v1Type "AttachRequest"),
    (v1alpha2Type "AttachRequest", v1Type "AttachRequest"),
    (v1alpha2Type "AttachResponse", v1Type "AttachResponse"),
    (v1alpha2Type "ContainerStatsRequest", v1Type "ContainerStatsRequest"),
    (v1alpha2Type "ContainerStatsResponse", v1Type "ContainerStatsResponse"),
    (v1alpha2Type "ContainerStatusRequest", v1Type "ContainerStatusRequest"),
    (v1alpha2Type "ContainerStatusResponse", v1Type "ContainerStatusResponse"),
    (v1alpha2Type "CreateContainerRequest", v1Type "CreateContainerRequest"),
    (v1alpha2Type "CreateContainerResponse", v1Type "CreateContainerResponse"),
    (v1alpha2Type "ExecRequest", v1Type "ExecRequest"),
    (v1alpha2Type "ExecResponse", v1Type "ExecResponse"),
    (v1alpha2Type "ExecSyncRequest", v1Type "ExecSyncRequest"),
    (v1alpha2Type "ExecSyncResponse", v1Type "ExecSyncResponse"),
    (v1alpha2Type "ImageFsInfoRequest", v1Type "ImageFsInfoRequest"),
    (v1alpha2Type "ImageFsInfoResponse", v1Type "ImageFsInfoResponse"),
    (v1alpha2Type "ImageStatusRequest", v1Type "ImageStatusRequest"),
    (v1alpha2Type "ImageStatusResponse", v1Type "ImageStatusResponse"),
    (v1alpha2Type "ListContainersRequest", v1Type "ListContainersRequest"),
    (v1alpha2Type "ListContainersResponse", v1Type "ListContainersResponse"),
    (v1alpha2Type "ListContainerStatsRequest", v1Type "ListContainerStatsRequest"),
    (v1alpha2Type "ListContainerStatsResponse", v1Type "ListContainerStatsResponse"),
    (v1alpha2Type "ListImagesRequest", v1Type "ListImagesRequest"),
    (v1alpha2Type "ListImagesResponse", v1Type "ListImagesResponse"),
    (v1alpha2Type "ListPodSandboxRequest", v1Type "ListPodSandboxRequest"),
    (v1alpha2Type "ListPodSandboxResponse", v1Type "ListPodSandboxResponse"),
    (v1alpha2Type "ListPodSandboxStatsRequest", v1Type "ListPodSandboxStatsRequest"),
    (v1alpha2Type "ListPodSandboxStatsResponse", v1Type "ListPodSandboxStatsResponse"),
    (v1alpha2Type "PodSandboxStatsRequest", v1Type "PodSandboxStatsRequest"),
    (v1alpha2Type "PodSandboxStatsResponse", v1Type "PodSandboxStatsResponse"),
    (v1alpha2Type "PodSandboxStatusRequest", v1Type "PodSandboxStatusRequest"),
    (v1alpha2Type "PodSandboxStatusResponse", v1Type "PodSandboxStatusResponse"),
    (v1alpha2Type "PortForwardRequest", v1Type "PortForwardRequest"),
    (v1alpha2Type "PortForwardResponse", v1Type "PortForwardResponse"),
    (v1alpha2Type "PullImageRequest", v1Type "PullImageRequest"),
    (v1alpha2Type "PullImageResponse", v1Type "PullImageResponse"),
    (v1alpha2Type "RemoveContainerRequest", v1Type "RemoveContainerRequest"),
    (v1alpha2Type "RemoveContainerResponse", v1Type "RemoveContainerResponse"),
    (v1alpha2Type "RemoveImageRequest", v1Type "RemoveImageRequest"),
    (v1alpha2Type "RemoveImageResponse", v1Type "RemoveImageResponse"),
    (v1alpha2Type "RemovePodSandboxRequest", v1Type "RemovePodSandboxRequest"),
    (v1alpha2Type "RemovePodSandboxResponse", v1Type "RemovePodSandboxResponse"),
    (v1alpha2Type "ReopenContainerLogRequest", v1Type "ReopenContainerLogRequest"),
    (v1alpha2Type "ReopenContainerLogResponse", v1Type "ReopenContainerLogResponse"),
    (v1alpha2Type "RunPodSandboxRequest", v1Type "RunPodSandboxRequest"),
    (v1alpha2Type "RunPodSandboxResponse", v1Type "RunPodSandboxResponse"),
    (v1alpha2Type "StartContainerRequest", v1Type "StartContainerRequest"),
    (v1alpha2Type "StartContainerResponse", v1Type "StartContainerResponse"),
    (v1alpha2Type "StatusRequest", v1Type "StatusRequest"),
    (v1alpha2Type "StatusResponse", v1Type "StatusResponse"),
    (v1alpha2Type "StopContainerRequest", v1Type "StopContainerRequest"),
    (v1alpha2Type "StopContainerResponse", v1Type "StopContainerResponse"),
    (v1alpha2Type "StopPodSandboxRequest", v1Type "StopPodSandboxRequest"),
    (v1alpha2Type "StopPodSandboxResponse", v1Type "StopPodSandboxResponse"),
    (v1alpha2Type "UpdateContainerResourcesRequest", v1Type "UpdateContainerResourcesRequest"),
    (v1alpha2Type "UpdateContainerResourcesResponse", v1Type "UpdateContainerResourcesResponse"),
    (v1alpha2Type "UpdateRuntimeConfigRequest", v1Type "UpdateRuntimeConfigRequest"),
    (v1alpha2Type "UpdateRuntimeConfigResponse", v1Type "UpdateRuntimeConfigResponse"),
    (v1alpha2Type "VersionRequest", v1Type "VersionRequest"),
    (v1alpha2Type "VersionResponse", v1Type "VersionResponse"),
    (v1alpha2Type "PodSandbox", v1Type "PodSandbox"),
    (v1alpha2Type "Container", v1Type "Container"),
    (v1alpha2Type "LinuxContainerResources", v1Type "LinuxContainerResources"),
    (v1alpha2Type "KeyValue", v1Type "KeyValue")
  ]

/-- Lookup `typeMapper[t]` with the comma-ok form: `none` when the key is
absent. -/
def typeMapper (t : GoType) : Option GoType :=
  (typeMapperEntries.find? (fun kv => kv.1 = t)).map (fun kv => kv.2)

/-- Embedding of `ConvertByMarshal` (utils.go lines 198-205).  The argument
`marshal` is the result of `src.Marshal()` and `unmarshal` is the method
`dst.Unmarshal`; both belong to the generated CRI messages. -/
def ConvertByMarshal (marshal : Except GoError (List Nat))
    (unmarshal : List Nat → Option GoError) : Option GoError :=
  match marshal with
  | .error err => some err
  | .ok data => unmarshal data

/-- The type assertion `in.(Marshaler)` of utils.go line 308, on the dynamic
type of `in`.  It is made once the element type has been found in the static
type map.  The messages of the CRI packages declare `Marshal` on the pointer
receiver, so the method is in the method set of the pointer type `*T`; a
defined pointer type (`type P *T`) has no methods, and for a value of such a
type the assertion panics. -/
def implementsMarshaler (t : GoType) : Bool :=
  decide (t = t.Elem.pointerTo)

/-- Embedding of `V1alpha2ToV1` (utils.go lines 281-314): the returned value
and the returned error, and `none` when the call panics instead of returning.
`Marshal x` is the result of the method `Marshal` of the message `x` points to
and `Unmarshal t` is the method `Unmarshal` of a fresh message of type `t`; the
content of messages is not modelled, an interface value is its dynamic type and
whether it is a nil pointer.  `reflect.New(outType)` is a non-nil pointer of
type `*outType`, a type of the CRI v1 package, for which the assertion
`outPtr.Interface().(Unmarshaler)` holds. -/
def V1alpha2ToV1 (Marshal : Iface → Except GoError (List Nat))
    (Unmarshal : GoType → List Nat → Option GoError) (x : Iface) :
    Option (Iface × Option GoError) :=
  match x with
  | .nil => some (.nil, some (.msg "nil pointer"))
  | .typed t isNil =>
    if IsV1Type x then some (x, none)
    else
      let inType := t
      if inType.Kind ≠ Kind.Ptr then some (x, some (.msg "not a pointer type"))
      else
        let inType := inType.Elem
        if inType.PkgPath ≠ v1alpha2PkgPath then some (x, some (.notV1alpha2 t))
        else
          match typeMapper inType with
          | none => some (x, some (.undefinedConversion t))
          | some outType =>
            let outPtr := Iface.typed outType.pointerTo false
            if isNil = false then
              if implementsMarshaler t then
                match ConvertByMarshal (Marshal x) (Unmarshal outType) with
                | some err => some (x, some err)
                | none => some (outPtr, none)
              else none
            else some (outPtr, none)

/-! ## Interception pipeline

`InterceptRuntimeRequest` of `server/cri/criserver.go` calls collaborators that
live in other packages: the resource executor, the hook dispatcher and the
backend handler.  They are parameters of the embedding.  Each of them acts on a
world state of type `σ` (executor, checkpoint store, plugins, backend), which
is passed explicitly, and the embedding records every call it makes, with its
arguments and what the call returned, in a trace.  Interface values are of a
type `V`, and `Option V` where the code tests or returns `nil`.  Logging, the
context argument and `GetMetaInfo` (read for log lines only) are left out. -/

/-- Modelled from the spec: the constants of `interceptor.RuntimeServiceType`
are declared outside the source files; these are the ones the sources name,
and `Other n` is any further service type, such as one for RemovePodSandbox,
which the front end forwards without interception. -/
inductive RuntimeServiceType where
  | RunPodSandbox
  | StopPodSandbox
  | CreateContainer
  | StartContainer
  | StopContainer
  | RemoveContainer
  | UpdateContainerResources
  | Other (name : String)
deriving DecidableEq

/-- Modelled from the spec: the constants of `config.RuntimeRequestPath` are
declared outside the source files; table of spec 4.E. -/
inductive RuntimeRequestPath where
  | RunPodSandbox
  | StopPodSandbox
  | CreateContainer
  | StartContainer
  | StopContainer
  | UpdateContainerResources
  | NoneRuntimeHookPath
deriving DecidableEq

/-- Modelled from the spec: the constants of
`resource_executor.RuntimeResourceType` are declared outside the source files;
spec 4.E: Pod, Container, Noop. -/
inductive RuntimeResourceType where
  | RuntimePodResource
  | RuntimeContainerResource
  | RuntimeNoopResource
deriving DecidableEq

/-- Modelled from the spec: `utils.CallHookPluginOperation` is declared outside
the source files; spec 4.B.1: ShouldCallHookPlugin, ShouldNotCallHookPlugin,
Unknown. -/
inductive CallHookPluginOperation where
  | Unknown
  | ShouldCallHookPlugin
  | ShouldNotCallHookPlugin
deriving DecidableEq

/-- Modelled from the spec: `config.FailurePolicy` is declared outside the
source files; spec 4.D: PolicyFail, PolicyIgnore. -/
inductive FailurePolicy where
  | PolicyFail
  | PolicyIgnore
deriving DecidableEq

/-- Modelled from the spec: the hook stages of package `config`; spec 4.D:
PreHook, PostHook. -/
inductive RuntimeHookStage where
  | PreHook
  | PostHook
deriving DecidableEq

/-- Embedding of `getRuntimeHookInfo` (criserver.go lines 103-120). -/
def getRuntimeHookInfo (serviceType : RuntimeServiceType) :
    RuntimeRequestPath × RuntimeResourceType :=
  match serviceType with
  | .RunPodSandbox => (.RunPodSandbox, .RuntimePodResource)
  | .StopPodSandbox => (.StopPodSandbox, .RuntimePodResource)
  | .CreateContainer => (.CreateContainer, .RuntimeContainerResource)
  | .StartContainer => (.StartContainer, .RuntimeContainerResource)
  | .StopContainer => (.StopContainer, .RuntimeContainerResource)
  | .UpdateContainerResources => (.UpdateContainerResources, .RuntimeContainerResource)
  | _ => (.NoneRuntimeHookPath, .RuntimeNoopResource)

/-- One call made by `InterceptRuntimeRequest`: the arguments, then what the
call returned. -/
inductive Step (V : Type) where
  | ParseRequest (request : V) (op : CallHookPluginOperation) (err : Option GoError)
  | Dispatch (path : RuntimeRequestPath) (stage : RuntimeHookStage)
      (hookRequest : Option V) (response : Option V) (err : Option GoError)
      (policy : FailurePolicy)
  | UpdateRequest (response : V) (request : V) (err : Option GoError)
  | handler (request : V) (res : Option V) (err : Option GoError)
  | ResourceCheckPoint (res : Option V) (err : Option GoError)
  | DeleteCheckpointIfNeed (request : V)
deriving DecidableEq

/-- The pipeline step a call belongs to. -/
inductive StepKind where
  | ParseRequest
  | PreHook
  | UpdateRequest
  | Handler
  | ResourceCheckPoint
  | PostHook
  | DeleteCheckpointIfNeed
deriving DecidableEq

/-- The pipeline step of a recorded call; a `Dispatch` is a pre-hook or a
post-hook step by its stage argument. -/
def Step.kind {V : Type} : Step V → StepKind
  | .ParseRequest _ _ _ => .ParseRequest
  | .Dispatch _ .PreHook _ _ _ _ => .PreHook
  | .Dispatch _ .PostHook _ _ _ _ => .PostHook
  | .UpdateRequest _ _ _ => .UpdateRequest
  | .handler _ _ _ => .Handler
  | .ResourceCheckPoint _ _ => .ResourceCheckPoint
  | .DeleteCheckpointIfNeed _ => .DeleteCheckpointIfNeed

/-- The methods of a resource executor that the pipeline calls.
`UpdateRequest` rewrites the request in place: it returns the content of the
request after the call. -/
structure Executor (σ V : Type) where
  ParseRequest : V → σ → (CallHookPluginOperation × Option GoError) × σ
  GenerateHookRequest : σ → Option V
  UpdateRequest : V → V → σ → (Option GoError × V) × σ
  ResourceCheckPoint : Option V → σ → Option GoError × σ
  DeleteCheckpointIfNeed : V → σ → σ

/-- The collaborators of `InterceptRuntimeRequest`: the executor factory
`resource_executor.NewRuntimeResourceExecutor` and the method `Dispatch` of the
hook dispatcher, which returns `(response, err, policy)`. -/
structure Collaborators (σ V : Type) where
  NewRuntimeResourceExecutor : RuntimeResourceType → Executor σ V
  Dispatch : RuntimeRequestPath → RuntimeHookStage → Option V → σ →
    (Option V × Option GoError × FailurePolicy) × σ

/-- A `grpc.UnaryHandler`: the backend call, returning `(res, err)`. -/
abbrev UnaryHandler (σ V : Type) := V → σ → (Option V × Option GoError) × σ

/-- Where the pipeline stands after a stage: the return statement that ran, if
one did, the content of the request, the world state and the calls made. -/
structure Progress (σ V : Type) where
  returned : Option (Option V × Option GoError)
  request : V
  state : σ
  trace : List (Step V)

/-- What `InterceptRuntimeRequest` returns and leaves behind. -/
structure Outcome (σ V : Type) where
  res : Option V
  err : Option GoError
  trace : List (Step V)
  state : σ

/-- The first `switch callHookOperation` (criserver.go lines 133-147). -/
def preHookStage {σ V : Type} (c : Collaborators σ V) (resourceExecutor : Executor σ V)
    (runtimeHookPath : RuntimeRequestPath) (callHookOperation : CallHookPluginOperation)
    (request : V) (s : σ) : Progress σ V :=
  match callHookOperation with
  | .ShouldCallHookPlugin =>
    let hookRequest := resourceExecutor.GenerateHookRequest s
    let d := c.Dispatch runtimeHookPath .PreHook hookRequest s
    let response := d.1.1
    let err := d.1.2.1
    let policy := d.1.2.2
    let call := Step.Dispatch runtimeHookPath .PreHook hookRequest response err policy
    match err with
    | some e =>
      if policy = .PolicyFail then
        { returned := some (none, some (.hookServer e)), request := request,
          state := d.2, trace := [call] }
      else { returned := none, request := request, state := d.2, trace := [call] }
    | none =>
      match response with
      | some rsp =>
        let u := resourceExecutor.UpdateRequest rsp request d.2
        { returned := none, request := u.1.2, state := u.2,
          trace := [call, Step.UpdateRequest rsp request u.1.1] }
      | none => { returned := none, request := request, state := d.2, trace := [call] }
  | _ => { returned := none, request := request, state := s, trace := [] }

/-- The backend call and the checkpoint (criserver.go lines 148-158). -/
def backendStage {σ V : Type} (resourceExecutor : Executor σ V)
    (handler : UnaryHandler σ V) (request : V) (s : σ) :
    (Option V × Option GoError) × σ × List (Step V) :=
  let h := handler request s
  let res := h.1.1
  let err := h.1.2
  match err with
  | none =>
    let cp := resourceExecutor.ResourceCheckPoint res h.2
    ((res, err), cp.2,
      [Step.handler request res err, Step.ResourceCheckPoint res cp.1])
  | some _ => ((res, err), h.2, [Step.handler request res err])

/-- The second `switch callHookOperation` (criserver.go lines 159-164); what
the post-hook `Dispatch` returns is dropped. -/
def postHookStage {σ V : Type} (c : Collaborators σ V) (resourceExecutor : Executor σ V)
    (runtimeHookPath : RuntimeRequestPath) (callHookOperation : CallHookPluginOperation)
    (s : σ) : σ × List (Step V) :=
  match callHookOperation with
  | .ShouldCallHookPlugin =>
    let hookRequest := resourceExecutor.GenerateHookRequest s
    let d := c.Dispatch runtimeHookPath .PostHook hookRequest s
    (d.2, [Step.Dispatch runtimeHookPath .PostHook hookRequest d.1.1 d.1.2.1 d.1.2.2])
  | _ => (s, [])

/-- The statements of `InterceptRuntimeRequest` after the `defer` (criserver.go
lines 133-165), up to the return statement that runs. -/
def interceptBody {σ V : Type} (c : Collaborators σ V) (resourceExecutor : Executor σ V)
    (runtimeHookPath : RuntimeRequestPath) (callHookOperation : CallHookPluginOperation)
    (request : V) (handler : UnaryHandler σ V) (s : σ) : Progress σ V :=
  let pre := preHookStage c resourceExecutor runtimeHookPath callHookOperation request s
  match pre.returned with
  | some r => { pre with returned := some r }
  | none =>
    let b := backendStage resourceExecutor handler pre.request pre.state
    let post := postHookStage c resourceExecutor runtimeHookPath callHookOperation b.2.1
    { returned := some b.1, request := pre.request, state := post.1,
      trace := pre.trace ++ b.2.2 ++ post.2 }

/-- Embedding of `InterceptRuntimeRequest` (criserver.go lines 122-166).  The
deferred `DeleteCheckpointIfNeed(request)` runs when the body has returned, on
the request as it then is. -/
def InterceptRuntimeRequest {σ V : Type} (c : Collaborators σ V)
    (serviceType : RuntimeServiceType) (request : V) (handler : UnaryHandler σ V)
    (s : σ) : Outcome σ V :=
  let hookInfo := getRuntimeHookInfo serviceType
  let runtimeHookPath := hookInfo.1
  let resourceExecutor := c.NewRuntimeResourceExecutor hookInfo.2
  let parsed := resourceExecutor.ParseRequest request s
  let callHookOperation := parsed.1.1
  let body := interceptBody c resourceExecutor runtimeHookPath callHookOperation
    request handler parsed.2
  let result := body.returned.getD (none, none)
  { res := result.1
    err := result.2
    trace := Step.ParseRequest request callHookOperation parsed.1.2 :: body.trace ++
      [Step.DeleteCheckpointIfNeed body.request]
    state := resourceExecutor.DeleteCheckpointIfNeed body.request body.state }

/-! ### A concrete run

The world state is the number of collaborator calls made so far and interface
values are strings. -/

/-- An executor whose `ParseRequest` answers `op` and whose
`ResourceCheckPoint` answers `cpErr`. -/
def demoExecutor (op : CallHookPluginOperation) (cpErr : Option GoError) :
    Executor Nat String where
  ParseRequest := fun _ s => ((op, none), s + 1)
  GenerateHookRequest := fun _ => some "hook request"
  UpdateRequest := fun rsp req s => ((none, req ++ "+" ++ rsp), s + 1)
  ResourceCheckPoint := fun _ s => (cpErr, s + 1)
  DeleteCheckpointIfNeed := fun _ s => s + 1

/-- Collaborators whose pre-hook `Dispatch` answers `pre` and whose post-hook
`Dispatch` answers `post`. -/
def demoCollaborators (op : CallHookPluginOperation)
    (pre post : Option String × Option GoError × FailurePolicy)
    (cpErr : Option GoError) : Collaborators Nat String where
  NewRuntimeResourceExecutor := fun _ => demoExecutor op cpErr
  Dispatch := fun _ stage _ s =>
    (match stage with
      | .PreHook => pre
      | .PostHook => post, s + 1)

/-- A backend handler that answers `r`. -/
def demoHandler (r : Option String × Option GoError) : UnaryHandler Nat String :=
  fun _ s => (r, s + 1)

/-- The error a failing hook plugin returns in the concrete runs. -/
def pluginError : GoError := .msg "plugin failed"

/-- The pipeline steps spec 5 orders, in that order. -/
def pipelineOrder : List StepKind :=
  [.ParseRequest, .PreHook, .Handler, .ResourceCheckPoint, .PostHook]

/-- A `Marshal` method that succeeds on every message. -/
def marshalOk : Iface → Except GoError (List Nat) := fun _ => .ok []

/-- An `Unmarshal` method that succeeds on every input. -/
def unmarshalOk : GoType → List Nat → Option GoError := fun _ _ => none

/-- A defined pointer type, `type RequestPointer *v1alpha2.AttachRequest`
declared in a package of its own: a type of pointer kind that has no
methods. -/
def definedPointerType : GoType :=
  .ptr "example.com/pkg" "RequestPointer" v1alpha2AttachRequest

/-- StopPodSandbox whose pre-hook plugin fails with `PolicyFail`. -/
def abortedRun : Outcome Nat String :=
  InterceptRuntimeRequest
    (demoCollaborators .ShouldCallHookPlugin (none, some pluginError, .PolicyFail)
      (none, none, .PolicyIgnore) none)
    .StopPodSandbox "request" (demoHandler (some "response", none)) 0

/-- Scenario 2 of spec 8: CreateContainer whose pre-hook plugin fails with
`PolicyIgnore`; here the failing dispatch also carries a response. -/
def ignoredFailureRun : Outcome Nat String :=
  InterceptRuntimeRequest
    (demoCollaborators .ShouldCallHookPlugin
      (some "hook response", some pluginError, .PolicyIgnore) (none, none, .PolicyIgnore) none)
    .CreateContainer "request" (demoHandler (some "response", none)) 0

/-- CreateContainer whose backend handler fails. -/
def backendErrorRun : Outcome Nat String :=
  InterceptRuntimeRequest
    (demoCollaborators .ShouldCallHookPlugin (some "hook response", none, .PolicyIgnore)
      (none, none, .PolicyIgnore) none)
    .CreateContainer "request" (demoHandler (none, some (.msg "backend failed"))) 0

/-- CreateContainer whose backend handler succeeds and whose checkpoint
fails. -/
def checkpointErrorRun : Outcome Nat String :=
  InterceptRuntimeRequest
    (demoCollaborators .ShouldCallHookPlugin (some "hook response", none, .PolicyIgnore)
      (none, none, .PolicyIgnore) (some (.msg "checkpoint failed")))
    .CreateContainer "request" (demoHandler (some "response", none)) 0

/-- CreateContainer whose backend handler succeeds and whose post-hook
`Dispatch` returns a response and an error with `PolicyFail`. -/
def postHookErrorRun : Outcome Nat String :=
  InterceptRuntimeRequest
    (demoCollaborators .ShouldCallHookPlugin (none, none, .PolicyIgnore)
      (some "post response", some pluginError, .PolicyFail) none)
    .CreateContainer "request" (demoHandler (some "response", none)) 0

/-- Collaborators that hand out `demoExecutor op none` as the Noop executor
and an executor that parses every request to `other` for Pod and Container. -/
def noopOnlyCollaborators (op other : CallHookPluginOperation) : Collaborators Nat String where
  NewRuntimeResourceExecutor := fun t =>
    match t with
    | .RuntimeNoopResource => demoExecutor op none
    | _ => demoExecutor other (some (.msg "checkpoint failed"))
  Dispatch := fun _ _ _ s => ((none, none, .PolicyIgnore), s + 1)

/-! ## Startup: capability probing, failover and `Run`

The backend is probed, listed and served through calls whose results are
parameters of the embedding.  A field of `RuntimeManagerCriServer` that holds a
server is `true`, a nil field is `false`. -/

/-- The four capability probes of `initBackendServerV1` and
`initBackendServerV1alpha2`. -/
inductive Probe where
  | V1Version
  | V1ImageFsInfo
  | V1alpha2Version
  | V1alpha2ImageFsInfo
deriving DecidableEq

/-- What a probe returns, as the code tells it apart: `err == nil`, an error
with `status.Code(err) == codes.Unimplemented`, any other error. -/
inductive ProbeOutcome where
  | ok
  | unimplemented
  | failed (err : GoError)
deriving DecidableEq

/-- The server fields of `RuntimeManagerCriServer` (criserver.go lines 49-57):
`true` when the field is not nil. -/
structure RuntimeManagerCriServer where
  runtimeServerV1 : Bool
  imageServerV1 : Bool
  runtimeServerV1alpha2 : Bool
  imageServerV1alpha2 : Bool
deriving DecidableEq

/-- Embedding of `NewRuntimeManagerCriServer` (criserver.go lines 59-64): no
server field is set. -/
def NewRuntimeManagerCriServer : RuntimeManagerCriServer :=
  { runtimeServerV1 := false, imageServerV1 := false,
    runtimeServerV1alpha2 := false, imageServerV1alpha2 := false }

/-- The result of an initialisation function: the error returned, the server
fields afterwards and the probes that were called, in order. -/
structure InitResult where
  err : Option GoError
  server : RuntimeManagerCriServer
  probes : List Probe
deriving DecidableEq

/-- Embedding of `initBackendServerV1` (criserver.go lines 170-198). -/
def initBackendServerV1 (probe : Probe → ProbeOutcome) (c : RuntimeManagerCriServer) :
    InitResult :=
  let version := probe .V1Version
  match version with
  | .failed err => { err := some err, server := c, probes := [.V1Version] }
  | _ =>
    let c := if version = .ok then { c with runtimeServerV1 := true } else c
    let image := probe .V1ImageFsInfo
    match image with
    | .failed err =>
      { err := some err, server := c, probes := [.V1Version, .V1ImageFsInfo] }
    | _ =>
      let c := if image = .ok then { c with imageServerV1 := true } else c
      { err := none, server := c, probes := [.V1Version, .V1ImageFsInfo] }

/-- Embedding of `initBackendServerV1alpha2` (criserver.go lines 202-230). -/
def initBackendServerV1alpha2 (probe : Probe → ProbeOutcome) (c : RuntimeManagerCriServer) :
    InitResult :=
  let version := probe .V1alpha2Version
  match version with
  | .failed err => { err := some err, server := c, probes := [.V1alpha2Version] }
  | _ =>
    let c := if version = .ok then { c with runtimeServerV1alpha2 := true } else c
    let image := probe .V1alpha2ImageFsInfo
    match image with
    | .failed err =>
      { err := some err, server := c, probes := [.V1alpha2Version, .V1alpha2ImageFsInfo] }
    | _ =>
      let c := if image = .ok then { c with imageServerV1alpha2 := true } else c
      { err := none, server := c, probes := [.V1alpha2Version, .V1alpha2ImageFsInfo] }

/-- Embedding of `initBackendServer` (criserver.go lines 236-275);
`dialRuntime` and `dialImage` are the errors of the two `generateGrpcConn`
calls. -/
def initBackendServer (dialRuntime dialImage : Option GoError)
    (probe : Probe → ProbeOutcome) (c : RuntimeManagerCriServer) : InitResult :=
  match dialRuntime with
  | some err => { err := some err, server := c, probes := [] }
  | none =>
    match dialImage with
    | some err => { err := some err, server := c, probes := [] }
    | none =>
      let r1 := initBackendServerV1 probe c
      match r1.err with
      | some err => { err := some err, server := r1.server, probes := r1.probes }
      | none =>
        let r2 := initBackendServerV1alpha2 probe r1.server
        match r2.err with
        | some err =>
          { err := some err, server := r2.server, probes := r1.probes ++ r2.probes }
        | none =>
          let c := r2.server
          if c.runtimeServerV1 = false ∧ c.runtimeServerV1alpha2 = false then
            { err := some (.msg
                "the backend runtime server doesn't support CRI v1 or v1alpha2 API"),
              server := c, probes := r1.probes ++ r2.probes }
          else if c.imageServerV1 = false ∧ c.imageServerV1alpha2 = false then
            { err := some (.msg
                "the backend image server doesn't support CRI v1 or v1alpha2 API"),
              server := c, probes := r1.probes ++ r2.probes }
          else { err := none, server := c, probes := r1.probes ++ r2.probes }

/-- The checkpoint store: pod records by sandbox id and container records by
container id. -/
structure Store (PI CI : Type) where
  pods : Finmap (fun _ : String => PI)
  containers : Finmap (fun _ : String => CI)

/-- What failover calls: the two listings of either API version (a v1alpha2
listing holds the items as the converted response carries them), the `Marshal`
and `Unmarshal` methods used by the conversion, the getters `GetId`, and
`ParsePod` and `ParseContainer` of the executors, which return the record to
checkpoint; `ParseContainer` reads the pod records of the store. -/
structure FailoverEnv (P C PI CI : Type) where
  ListPodSandboxV1 : Except GoError (List P)
  ListContainersV1 : Except GoError (List C)
  ListPodSandboxV1alpha2 : Except GoError (List P)
  ListContainersV1alpha2 : Except GoError (List C)
  Marshal : Iface → Except GoError (List Nat)
  Unmarshal : GoType → List Nat → Option GoError
  podId : P → String
  containerId : C → String
  ParsePod : P → Except GoError PI
  ParseContainer : C → Finmap (fun _ : String => PI) → Except GoError CI

/-- Embedding of `listPodsAndContainersV1` (criserver.go lines 279-295). -/
def listPodsAndContainersV1 {P C PI CI : Type} (env : FailoverEnv P C PI CI) :
    Except GoError (List P × List C) :=
  match env.ListPodSandboxV1 with
  | .error err => .error err
  | .ok podResponse =>
    match env.ListContainersV1 with
    | .error err => .error err
    | .ok containerResponse => .ok (podResponse, containerResponse)

/-- Embedding of `listPodsAndContainersV1alpha2` (criserver.go lines 300-326):
each response is converted as a whole by `V1alpha2ToV1`.  The responses are of
the pointer types `*v1alpha2.ListPodSandboxResponse` and
`*v1alpha2.ListContainersResponse`, on which `V1alpha2ToV1` does not panic: the
proof given to `Option.get` says so, and what the call returned is read off
it. -/
def listPodsAndContainersV1alpha2 {P C PI CI : Type} (env : FailoverEnv P C PI CI) :
    Except GoError (List P × List C) :=
  match env.ListPodSandboxV1alpha2 with
  | .error err => .error err
  | .ok podResponse =>
    match ((V1alpha2ToV1 env.Marshal env.Unmarshal
      (.typed (v1alpha2Type "ListPodSandboxResponse").pointerTo false)).get (by
        simp only [V1alpha2ToV1, implementsMarshaler, GoType.pointerTo, GoType.Elem,
          decide_True]
        repeat' split
        all_goals rfl)).2 with
    | some err => .error err
    | none =>
      match env.ListContainersV1alpha2 with
      | .error err => .error err
      | .ok containerResponse =>
        match ((V1alpha2ToV1 env.Marshal env.Unmarshal
          (.typed (v1alpha2Type "ListContainersResponse").pointerTo false)).get (by
            simp only [V1alpha2ToV1, implementsMarshaler, GoType.pointerTo, GoType.Elem,
              decide_True]
            repeat' split
            all_goals rfl)).2 with
        | some err => .error err
        | none => .ok (podResponse, containerResponse)

/-- Modelled from the spec: `ParsePod` and `ResourceCheckPoint` of the pod
executor are not among the sources.  The body of the first loop of `failOver`
(criserver.go lines 343-352): an entry that fails to parse is skipped; spec
4.B.5: "`RunPodSandboxResponse` → write `PodInfo` keyed by
`response.podSandboxId`". -/
def checkpointPod {P C PI CI : Type} (env : FailoverEnv P C PI CI) (store : Store PI CI)
    (pod : P) : Store PI CI :=
  match env.ParsePod pod with
  | .error _ => store
  | .ok info => { store with pods := store.pods.insert (env.podId pod) info }

/-- Modelled from the spec: `ParseContainer` and `ResourceCheckPoint` of the
container executor are not among the sources.  The body of the second loop of
`failOver` (criserver.go lines 354-363); spec 4.G: "Symmetrically for
containers". -/
def checkpointContainer {P C PI CI : Type} (env : FailoverEnv P C PI CI)
    (store : Store PI CI) (container : C) : Store PI CI :=
  match env.ParseContainer container store.pods with
  | .error _ => store
  | .ok info =>
    { store with containers := store.containers.insert (env.containerId container) info }

/-- Embedding of `failOver` (criserver.go lines 328-366): the error returned
and the store afterwards. -/
def failOver {P C PI CI : Type} (c : RuntimeManagerCriServer)
    (env : FailoverEnv P C PI CI) (store : Store PI CI) : Option GoError × Store PI CI :=
  let listed :=
    if c.runtimeServerV1 then listPodsAndContainersV1 env
    else listPodsAndContainersV1alpha2 env
  match listed with
  | .error err => (some err, store)
  | .ok (podResponse, containerResponse) =>
    let store := podResponse.foldl (checkpointPod env) store
    let store := containerResponse.foldl (checkpointContainer env) store
    (none, store)

/-- A step of `Run` that the outside can see. -/
inductive StartupStep where
  | initBackendServer (err : Option GoError)
  | failOver (err : Option GoError)
  | Listen (err : Option GoError)
  | RegisterRuntimeV1
  | RegisterImageV1
  | RegisterRuntimeV1alpha2
  | RegisterImageV1alpha2
  | Serve (err : Option GoError)
deriving DecidableEq

/-- What `Run` is given: the dial errors and probe results of the backend, the
failover calls, the error of `net.Listen` and the error with which
`grpcServer.Serve` returns. -/
structure RunEnv (P C PI CI : Type) where
  dialRuntime : Option GoError
  dialImage : Option GoError
  probe : Probe → ProbeOutcome
  failover : FailoverEnv P C PI CI
  listen : Option GoError
  serve : Option GoError

/-- What `Run` returns and leaves behind. -/
structure RunResult (PI CI : Type) where
  err : Option GoError
  steps : List StartupStep
  store : Store PI CI

/-- Embedding of `Run` (criserver.go lines 70-101).  Line 74 calls
`c.failOver()` as a statement: what it returns is not looked at. -/
def Run {P C PI CI : Type} (c : RuntimeManagerCriServer) (env : RunEnv P C PI CI)
    (store : Store PI CI) : RunResult PI CI :=
  let init := initBackendServer env.dialRuntime env.dialImage env.probe c
  match init.err with
  | some err => { err := some err, steps := [.initBackendServer (some err)], store := store }
  | none =>
    let c := init.server
    let fo := failOver c env.failover store
    match env.listen with
    | some err =>
      { err := some err,
        steps := [.initBackendServer none, .failOver fo.1, .Listen (some err)],
        store := fo.2 }
    | none =>
      let registered :=
        (if c.runtimeServerV1 then [StartupStep.RegisterRuntimeV1] else []) ++
        (if c.imageServerV1 then [StartupStep.RegisterImageV1] else []) ++
        (if c.runtimeServerV1alpha2 then [StartupStep.RegisterRuntimeV1alpha2] else []) ++
        (if c.imageServerV1alpha2 then [StartupStep.RegisterImageV1alpha2] else [])
      { err := env.serve,
        steps := [.initBackendServer none, .failOver fo.1, .Listen none] ++ registered ++
          [.Serve env.serve],
        store := fo.2 }

/-! ### Concrete startups

Pods, containers and their records are strings; the id of an entry is the
entry. -/

/-- A backend that supports both API versions. -/
def probeAllOk : Probe → ProbeOutcome := fun _ => .ok

/-- The mixed-version backend of scenario 5: v1 is unimplemented, v1alpha2
works. -/
def probeV1alpha2Only : Probe → ProbeOutcome := fun p =>
  match p with
  | .V1Version => .unimplemented
  | .V1ImageFsInfo => .unimplemented
  | _ => .ok

/-- Failover calls over three listed pods and one container; `pod2` fails to
parse. -/
def threePodsEnv (Unmarshal : GoType → List Nat → Option GoError) :
    FailoverEnv String String String String where
  ListPodSandboxV1 := .ok ["pod1", "pod2", "pod3"]
  ListContainersV1 := .ok ["container1"]
  ListPodSandboxV1alpha2 := .ok ["pod1", "pod2", "pod3"]
  ListContainersV1alpha2 := .ok ["container1"]
  Marshal := marshalOk
  Unmarshal := Unmarshal
  podId := fun p => p
  containerId := fun c => c
  ParsePod := fun p => if p = "pod2" then .error (.msg "corrupt pod") else .ok p
  ParseContainer := fun c _ => .ok c

/-- An `Unmarshal` method that fails on every input. -/
def unmarshalFails : GoType → List Nat → Option GoError :=
  fun _ _ => some (.msg "cannot convert")

/-- Failover calls whose v1 pod listing fails. -/
def listFailsEnv : FailoverEnv String String String String :=
  { threePodsEnv unmarshalOk with ListPodSandboxV1 := .error (.msg "list failed") }

/-- The empty checkpoint store. -/
def emptyStore : Store String String := { pods := ∅, containers := ∅ }

/-- A startup whose failover listing fails, on a backend that supports both
API versions, with a listener that can be created. -/
def listFailsRun : RunResult String String :=
  Run NewRuntimeManagerCriServer
    { dialRuntime := none, dialImage := none, probe := probeAllOk,
      failover := listFailsEnv, listen := none, serve := none }
    emptyStore

/-- The server fields after probing the mixed-version backend: the v1alpha2
servers only. -/
def v1alpha2OnlyServer : RuntimeManagerCriServer :=
  (initBackendServer none none probeV1alpha2Only NewRuntimeManagerCriServer).server

/-- Scenario 6 of spec 8 with a conversion failure: a startup on the
mixed-version backend, which lists three pods, where the conversion of the
listing to v1 fails. -/
def conversionFailsRun : RunResult String String :=
  Run NewRuntimeManagerCriServer
    { dialRuntime := none, dialImage := none, probe := probeV1alpha2Only,
      failover := threePodsEnv unmarshalFails, listen := none, serve := none }
    emptyStore

/-! ## Range loops over Go maps

A function that runs a `range` loop over a map sees its entries in an order
that Go does not specify.  Such a map is given as the list of its entries, with
distinct keys, in the order the loop visits them; a property proved for every
such list holds for every order. -/

/-- A Go map from strings to `α`, with the order in which `range` visits it. -/
abbrev RangedMap (α : Type) := AList (fun _ : String => α)

/-- Message `v1.KeyValue`. -/
structure KeyValue where
  Key : String
  Value : String
deriving DecidableEq

/-- Getter `(*KeyValue).GetKey`, which returns `""` on a nil receiver. -/
def GetKey : Option KeyValue → String
  | none => ""
  | some kv => kv.Key

/-- Getter `(*KeyValue).GetValue`, which returns `""` on a nil receiver. -/
def GetValue : Option KeyValue → String
  | none => ""
  | some kv => kv.Value

/-- Go `append(s, x)` on a slice that may be nil (`none`): the result is never
nil. -/
def goAppend {α : Type} (s : Option (List α)) (x : α) : Option (List α) :=
  some (s.getD [] ++ [x])

/-- Embedding of `transferToKoordContainerEnvs` (utils.go lines 139-148); the
argument is a slice, nil or not, of pointers, nil or not. -/
def transferToKoordContainerEnvs (envs : Option (List (Option KeyValue))) : StringMap :=
  let res : StringMap := ∅
  match envs with
  | none => res
  | some items =>
    items.foldl (fun res item => res.insert (GetKey item) (GetValue item)) res

/-- Embedding of `transferToCRIV1ContainerEnvs` (utils.go lines 164-176); the
argument is a map, nil or not, and the result a slice, nil or not. -/
def transferToCRIV1ContainerEnvs (envs : Option (RangedMap String)) :
    Option (List (Option KeyValue)) :=
  let res : Option (List (Option KeyValue)) := none
  match envs with
  | none => res
  | some m =>
    m.entries.foldl (fun res e => goAppend res (some { Key := e.1, Value := e.2 })) res

/-- The numeric value of a `resource.Quantity`, in the smallest unit a quantity
can hold.  `Cmp` compares values and `Add`, `Sub` and `Neg` are exact; the
format of a quantity is not modelled. -/
abbrev Quantity := Int

/-- Type `corev1.ResourceList`, a map from resource names to quantities. -/
abbrev ResourceList := RangedMap Quantity

/-- Embedding of `MinResourceList` (resource.go lines 55-69). -/
def MinResourceList (a b : ResourceList) : ResourceList :=
  a.entries.foldl
    (fun result e =>
      match b.lookup e.1 with
      | none => result
      | some other =>
        if e.2 ≥ other then result.insert e.1 other else result.insert e.1 e.2)
    ∅

/-- Library function `quotav1.Add` of `k8s.io/apiserver/pkg/quota/v1`, which
the doc comment of `MinResourceList` refers to and which is not part of the
repository; transcribed from the library: every name of `a` with the sum when
`b` has the name too, then every name that only `b` has. -/
def quotaAdd (a b : ResourceList) : ResourceList :=
  let result : ResourceList := a.entries.foldl
    (fun result e =>
      match b.lookup e.1 with
      | some other => result.insert e.1 (e.2 + other)
      | none => result.insert e.1 e.2)
    ∅
  b.entries.foldl
    (fun result e =>
      match result.lookup e.1 with
      | some _ => result
      | none => result.insert e.1 e.2)
    result

/-- Library function `quotav1.Max`, transcribed from the library: every name
of `a` with the larger of the two quantities when `b` has the name too, then
every name that only `b` has. -/
def quotaMax (a b : ResourceList) : ResourceList :=
  let result : ResourceList := a.entries.foldl
    (fun result e =>
      match b.lookup e.1 with
      | some other => if e.2 ≤ other then result.insert e.1 other else result.insert e.1 e.2
      | none => result.insert e.1 e.2)
    ∅
  b.entries.foldl
    (fun result e =>
      match result.lookup e.1 with
      | some _ => result
      | none => result.insert e.1 e.2)
    result

/-- Library function `quotav1.Subtract`, transcribed from the library: every
name of `a` with the difference when `b` has the name too, then every name that
only `b` has, negated. -/
def quotaSubtract (a b : ResourceList) : ResourceList :=
  let result : ResourceList := a.entries.foldl
    (fun result e =>
      match b.lookup e.1 with
      | some other => result.insert e.1 (e.2 - other)
      | none => result.insert e.1 e.2)
    ∅
  b.entries.foldl
    (fun result e =>
      match result.lookup e.1 with
      | some _ => result
      | none => result.insert e.1 (-e.2))
    result

/-- The expression the doc comment of `MinResourceList` compares it with:
`quotav1.Subtract(quotav1.Add(a, b), quotav1.Max(a, b))`. -/
def minByQuota (a b : ResourceList) : ResourceList :=
  quotaSubtract (quotaAdd a b) (quotaMax a b)

/-- The list `a` of the example in the doc comment of `MinResourceList`:
cpu 10, memory 20Gi. -/
def exampleA : ResourceList :=
  AList.insert "memory" (20 * 1073741824) (AList.insert "cpu" 10 ∅)

/-- The list `b` of the example in the doc comment of `MinResourceList`:
cpu 6, memory 24Gi, nvidia.com/gpu 2. -/
def exampleB : ResourceList :=
  AList.insert "nvidia.com/gpu" 2
    (AList.insert "memory" (24 * 1073741824) (AList.insert "cpu" 6 ∅))

/-- The envs map of the "normal case with multi items" of
`Test_transferToCRIContainerEnvs`. -/
def exampleEnvs : RangedMap String :=
  AList.insert "key2" "value2" (AList.insert "key1" "value1" ∅)

/-- The collaborators `c` with `del` as the method `DeleteCheckpointIfNeed` of
every executor the factory hands out; the other methods and the dispatcher are
those of `c`. -/
def replaceDeleteCheckpointIfNeed {σ V : Type} (c : Collaborators σ V) (del : V → σ → σ) :
    Collaborators σ V where
  NewRuntimeResourceExecutor := fun t =>
    { c.NewRuntimeResourceExecutor t with DeleteCheckpointIfNeed := del }
  Dispatch := c.Dispatch

/-- Collaborators over a checkpoint store.  The world state is the list of the
sandbox ids that have a checkpoint and a request is the sandbox id it names.
`DeleteCheckpointIfNeed` removes the checkpoint of the sandbox the request
names, and the pre-hook plugin fails with `PolicyFail`. -/
def storeCollaborators : Collaborators (List String) String where
  NewRuntimeResourceExecutor := fun _ =>
    { ParseRequest := fun _ s => ((.ShouldCallHookPlugin, none), s)
      GenerateHookRequest := fun _ => some "hook request"
      UpdateRequest := fun _ req s => ((none, req), s)
      ResourceCheckPoint := fun _ s => (none, s)
      DeleteCheckpointIfNeed := fun req s => s.erase req }
  Dispatch := fun _ _ _ s => ((none, some pluginError, .PolicyFail), s)

/-- StopPodSandbox of the sandbox `pod1`, aborted by the pre-hook plugin, on a
store that holds checkpoints of `pod1` and `pod2`. -/
def storeAbortedRun : Outcome (List String) String :=
  InterceptRuntimeRequest storeCollaborators .StopPodSandbox "pod1"
    (fun _ s => ((some "response", none), s)) ["pod1", "pod2"]

/-! ## Closed forms of the merges -/

/-- Field-wise closed form of `updateResource` on two non-nil envelopes. -/
theorem updateResource_some_some (a b : LinuxContainerResources) :
    updateResource (some a) (some b) = some
      { CpuPeriod := if b.CpuPeriod > 0 then b.CpuPeriod else a.CpuPeriod
        CpuQuota := if b.CpuQuota ≠ 0 then b.CpuQuota else a.CpuQuota
        CpuShares := if b.CpuShares > 0 then b.CpuShares else a.CpuShares
        MemoryLimitInBytes :=
          if b.MemoryLimitInBytes > 0 then b.MemoryLimitInBytes else a.MemoryLimitInBytes
        OomScoreAdj :=
          if b.OomScoreAdj ≥ -1000 ∧ b.OomScoreAdj ≤ 1000 then b.OomScoreAdj
          else a.OomScoreAdj
        CpusetCpus := b.CpusetCpus
        CpusetMems := b.CpusetMems
        HugepageLimits := a.HugepageLimits
        Unified := MergeMap a.Unified b.Unified
        MemorySwapLimitInBytes :=
          if b.MemorySwapLimitInBytes > 0 then b.MemorySwapLimitInBytes
          else a.MemorySwapLimitInBytes } := by
  simp only [updateResource]
  split_ifs <;> rfl

/-- Field-wise closed form of `updateResourceByUpdateContainerResourceRequest`
on two non-nil envelopes. -/
theorem updateResourceByUCR_some_some (a b : LinuxContainerResources) :
    updateResourceByUpdateContainerResourceRequest (some a) (some b) = some
      { CpuPeriod := if b.CpuPeriod > 0 then b.CpuPeriod else a.CpuPeriod
        CpuQuota := if b.CpuQuota ≠ 0 then b.CpuQuota else a.CpuQuota
        CpuShares := if b.CpuShares > 0 then b.CpuShares else a.CpuShares
        MemoryLimitInBytes :=
          if b.MemoryLimitInBytes > 0 then b.MemoryLimitInBytes else a.MemoryLimitInBytes
        OomScoreAdj := a.OomScoreAdj
        CpusetCpus := if b.CpusetCpus ≠ "" then b.CpusetCpus else a.CpusetCpus
        CpusetMems := if b.CpusetMems ≠ "" then b.CpusetMems else a.CpusetMems
        HugepageLimits := a.HugepageLimits
        Unified := MergeMap a.Unified b.Unified
        MemorySwapLimitInBytes :=
          if b.MemorySwapLimitInBytes > 0 then b.MemorySwapLimitInBytes
          else a.MemorySwapLimitInBytes } := by
  simp only [updateResourceByUpdateContainerResourceRequest]
  by_cases h1 : b.CpuPeriod > 0 <;> by_cases h2 : b.CpuQuota ≠ 0 <;>
    by_cases h3 : b.CpuShares > 0 <;> by_cases h4 : b.MemoryLimitInBytes > 0 <;>
    by_cases h5 : b.CpusetCpus ≠ "" <;> by_cases h6 : b.CpusetMems ≠ "" <;>
    by_cases h7 : b.MemorySwapLimitInBytes > 0 <;>
    simp only [h1, h2, h3, h4, h5, h6, h7, if_true, if_false, not_false_eq_true,
      ne_eq, not_true_eq_false]

/-- Lookup in a merged map: the entry of `b` when `b` has the key, the entry of
`a` otherwise. -/
theorem MergeMap_lookup (a b : StringMap) (k : String) :
    (MergeMap a b).lookup k = (b.lookup k <|> a.lookup k) := by
  unfold MergeMap
  by_cases h : k ∈ b
  · rw [Finmap.lookup_union_left h]
    obtain ⟨v, hv⟩ := Finmap.mem_iff.mp h
    simp [hv]
  · rw [Finmap.lookup_union_right h, Finmap.lookup_eq_none.mpr h]
    simp

/-- Keys of a merged map: those of `a` and those of `b`. -/
theorem MergeMap_mem (a b : StringMap) (k : String) :
    k ∈ MergeMap a b ↔ k ∈ a ∨ k ∈ b := by
  unfold MergeMap
  rw [Finmap.mem_union]
  exact Or.comm

/-- The two package paths are different strings. -/
theorem v1PkgPath_ne_v1alpha2PkgPath : v1PkgPath ≠ v1alpha2PkgPath := by decide

/-! ## The general merge -/

/-- C1: for non-nil envelopes `a` and `b` the general merge returns a non-nil
envelope in which each of `CpuPeriod`, `CpuShares`, `MemoryLimitInBytes` and
`MemorySwapLimitInBytes` is the value of `b` when that value is positive and
the value of `a` when it is zero or negative. -/
theorem updateResource_positive_scalars (a b : LinuxContainerResources) :
    ∃ r, updateResource (some a) (some b) = some r ∧
      r.CpuPeriod = (if b.CpuPeriod > 0 then b.CpuPeriod else a.CpuPeriod) ∧
      r.CpuShares = (if b.CpuShares > 0 then b.CpuShares else a.CpuShares) ∧
      r.MemoryLimitInBytes =
        (if b.MemoryLimitInBytes > 0 then b.MemoryLimitInBytes
         else a.MemoryLimitInBytes) ∧
      r.MemorySwapLimitInBytes =
        (if b.MemorySwapLimitInBytes > 0 then b.MemorySwapLimitInBytes
         else a.MemorySwapLimitInBytes) :=
  ⟨_, updateResource_some_some a b, rfl, rfl, rfl, rfl⟩

/-- C2: for non-nil envelopes `a` and `b` the general merge takes `CpuQuota`
from `b` when it is not zero, negative values and the sentinel `-1` included,
and keeps the one of `a` when `b.CpuQuota = 0`. -/
theorem updateResource_cpuQuota (a b : LinuxContainerResources) :
    ∃ r, updateResource (some a) (some b) = some r ∧
      r.CpuQuota = (if b.CpuQuota ≠ 0 then b.CpuQuota else a.CpuQuota) :=
  ⟨_, updateResource_some_some a b, rfl⟩

/-- C3: for non-nil envelopes `a` and `b` the general merge takes
`OomScoreAdj` from `b` when it lies in `[-1000, 1000]` and keeps the one of `a`
otherwise; the merge has no error result, an out-of-range value still yields an
envelope. -/
theorem updateResource_oomScoreAdj (a b : LinuxContainerResources) :
    ∃ r, updateResource (some a) (some b) = some r ∧
      r.OomScoreAdj =
        (if -1000 ≤ b.OomScoreAdj ∧ b.OomScoreAdj ≤ 1000 then b.OomScoreAdj
         else a.OomScoreAdj) :=
  ⟨_, updateResource_some_some a b, rfl⟩

/-- C4: for non-nil envelopes `a` and `b` the general merge takes `CpusetCpus`
and `CpusetMems` from `b` whatever they are; an empty string in `b` leaves the
merged field empty. -/
theorem updateResource_cpuset (a b : LinuxContainerResources) :
    ∃ r, updateResource (some a) (some b) = some r ∧
      r.CpusetCpus = b.CpusetCpus ∧ r.CpusetMems = b.CpusetMems ∧
      (∃ r0, updateResource (some a) (some { b with CpusetCpus := "", CpusetMems := "" })
          = some r0 ∧ r0.CpusetCpus = "" ∧ r0.CpusetMems = "") :=
  ⟨_, updateResource_some_some a b, rfl, rfl, _, updateResource_some_some a _, rfl, rfl⟩

/-- C5: for non-nil envelopes `a` and `b` the `Unified` map of the general
merge has, at every key, the entry of `b.Unified` when `b.Unified` has the key
and the entry of `a.Unified` otherwise (none when neither has it); its keys are
the keys of `a.Unified` and of `b.Unified`. -/
theorem updateResource_unified (a b : LinuxContainerResources) :
    ∃ r, updateResource (some a) (some b) = some r ∧
      (∀ k, r.Unified.lookup k = (b.Unified.lookup k <|> a.Unified.lookup k)) ∧
      (∀ k, k ∈ r.Unified ↔ k ∈ a.Unified ∨ k ∈ b.Unified) :=
  ⟨_, updateResource_some_some a b,
    fun k => MergeMap_lookup a.Unified b.Unified k,
    fun k => MergeMap_mem a.Unified b.Unified k⟩

/-- C6: the first operand controls the identity of the general merge: with a
nil second operand the first one is returned, nil or not, and with a nil first
operand the result is nil whatever the second one is. -/
theorem updateResource_first_operand (a b : Option LinuxContainerResources) :
    updateResource a none = a ∧ updateResource none b = none := by
  constructor
  · cases a <;> rfl
  · cases b <;> rfl

/-- C7, as stated, fails: with a nil first operand and the non-nil envelope of
the test as second operand the general merge returns nil, not the second
operand. -/
theorem updateResource_nil_first_not_other :
    updateResource none (some testProposed) = none ∧
      updateResource none (some testProposed) ≠ some testProposed := by
  constructor
  · rfl
  · intro h
    cases h

/-- C7, amended: when an input of the general merge is absent the first
operand is what is returned: nil for a nil first operand and a non-nil second
one, and the first operand unchanged for a nil second operand. -/
theorem updateResource_absent_input (a b : LinuxContainerResources) :
    updateResource none (some b) = none ∧ updateResource (some a) none = some a :=
  ⟨rfl, rfl⟩

/-! ## The UpdateContainerResources merge -/

/-- C8: for non-nil envelopes `a` and `b` the UpdateContainerResources merge
returns an envelope whose `OomScoreAdj` is the one of `a`, whatever
`b.OomScoreAdj` is. -/
theorem updateResourceByUCR_keeps_oomScoreAdj (a b : LinuxContainerResources) :
    ∃ r, updateResourceByUpdateContainerResourceRequest (some a) (some b) = some r ∧
      r.OomScoreAdj = a.OomScoreAdj :=
  ⟨_, updateResourceByUCR_some_some a b, rfl⟩

/-- C9: for non-nil envelopes `a` and `b` the UpdateContainerResources merge
takes `CpusetCpus` (and likewise `CpusetMems`) from `b` when it is not empty
and keeps the one of `a` when it is empty; and a request all of whose fields
but `CpusetCpus` are unset leaves every other field of `a` as it was. -/
theorem updateResourceByUCR_cpuset (a b : LinuxContainerResources) (cpus : String) :
    (∃ r, updateResourceByUpdateContainerResourceRequest (some a) (some b) = some r ∧
      r.CpusetCpus = (if b.CpusetCpus ≠ "" then b.CpusetCpus else a.CpusetCpus) ∧
      r.CpusetMems = (if b.CpusetMems ≠ "" then b.CpusetMems else a.CpusetMems)) ∧
    updateResourceByUpdateContainerResourceRequest (some a)
        (some { zeroResources with CpusetCpus := cpus })
      = some { a with CpusetCpus := if cpus ≠ "" then cpus else a.CpusetCpus } := by
  refine ⟨⟨_, updateResourceByUCR_some_some a b, rfl, rfl⟩, ?_⟩
  rw [updateResourceByUCR_some_some]
  simp [zeroResources, MergeMap]

/-! ## Type-origin classification -/

/-- C10: the two predicates are both false on untyped nil.  On a value of a
type of non-pointer kind declared in package `p`, and on a pointer (nil or not,
pointer type `*e` or of any other pointer kind) to an element type `e` whose
package is `p`, exactly one of them is true when `p` is the CRI v1 or the CRI
v1alpha2 package, and both are false when `p` is any other package. -/
theorem IsV1Type_xor_IsV1alpha2Type :
    (IsV1Type .nil = false ∧ IsV1alpha2Type .nil = false) ∧
    (∀ (p n : String) (isNil : Bool),
      (p = v1PkgPath ∨ p = v1alpha2PkgPath →
        IsV1Type (.typed (.nonPtr p n) isNil) ≠
          IsV1alpha2Type (.typed (.nonPtr p n) isNil)) ∧
      (p ≠ v1PkgPath ∧ p ≠ v1alpha2PkgPath →
        IsV1Type (.typed (.nonPtr p n) isNil) = false ∧
          IsV1alpha2Type (.typed (.nonPtr p n) isNil) = false)) ∧
    (∀ (q m : String) (e : GoType) (isNil : Bool),
      (e.PkgPath = v1PkgPath ∨ e.PkgPath = v1alpha2PkgPath →
        IsV1Type (.typed (.ptr q m e) isNil) ≠
          IsV1alpha2Type (.typed (.ptr q m e) isNil)) ∧
      (e.PkgPath ≠ v1PkgPath ∧ e.PkgPath ≠ v1alpha2PkgPath →
        IsV1Type (.typed (.ptr q m e) isNil) = false ∧
          IsV1alpha2Type (.typed (.ptr q m e) isNil) = false)) := by
  have hne := v1PkgPath_ne_v1alpha2PkgPath
  refine ⟨⟨rfl, rfl⟩, ?_, ?_⟩
  · intro p n isNil
    simp only [IsV1Type, IsV1alpha2Type, GoType.Kind, GoType.PkgPath]
    constructor
    · rintro (h | h)
      · subst h
        simp [hne]
      · subst h
        simp [hne.symm]
    · rintro ⟨h1, h2⟩
      simp [h1, h2]
  · intro q m e isNil
    simp only [IsV1Type, IsV1alpha2Type, GoType.Kind, GoType.Elem, if_true]
    constructor
    · rintro (h | h)
      · rw [h]
        simp [hne]
      · rw [h]
        simp [hne.symm]
    · rintro ⟨h1, h2⟩
      simp [h1, h2]

/-- Witness for C10 on the inputs of `Test_IsV1Type` and `Test_IsV1alpha2Type`:
a v1 value, a typed-nil v1alpha2 pointer, a `struct{}` value and a pointer to
`struct{}`. -/
theorem IsV1Type_xor_IsV1alpha2Type_witness :
    IsV1Type (.typed v1AttachRequest false) ≠
        IsV1alpha2Type (.typed v1AttachRequest false) ∧
      IsV1Type (.typed v1alpha2AttachRequest.pointerTo true) ≠
        IsV1alpha2Type (.typed v1alpha2AttachRequest.pointerTo true) ∧
      (IsV1Type (.typed emptyStruct false) = false ∧
        IsV1alpha2Type (.typed emptyStruct false) = false) ∧
      (IsV1Type (.typed emptyStruct.pointerTo false) = false ∧
        IsV1alpha2Type (.typed emptyStruct.pointerTo false) = false) :=
  ⟨(IsV1Type_xor_IsV1alpha2Type.2.1 _ "AttachRequest" false).1 (Or.inl rfl),
    (IsV1Type_xor_IsV1alpha2Type.2.2 "" "" v1alpha2AttachRequest true).1 (Or.inr rfl),
    (IsV1Type_xor_IsV1alpha2Type.2.1 "" _ false).2 ⟨by decide, by decide⟩,
    (IsV1Type_xor_IsV1alpha2Type.2.2 "" "" emptyStruct false).2 ⟨by decide, by decide⟩⟩

/-! ## Version adapter -/

/-- Every entry of the static type map sends a type of the v1alpha2 package to
a type of the v1 package. -/
theorem typeMapperEntries_pkg :
    ∀ kv ∈ typeMapperEntries, kv.1.PkgPath = v1alpha2PkgPath ∧ kv.2.PkgPath = v1PkgPath := by
  intro kv h
  simp only [typeMapperEntries, List.mem_cons, List.mem_singleton, List.not_mem_nil, or_false] at h
  rcases h with h | h | h | h | h | h | h | h | h | h | h | h | h | h | h | h | h | h | h | h |
    h | h | h | h | h | h | h | h | h | h | h | h | h | h | h | h | h | h | h | h |
    h | h | h | h | h | h | h | h | h | h | h | h | h | h | h | h | h | h | h | h | h | h | h <;>
  (subst h; exact ⟨rfl, rfl⟩)

/-- A successful lookup in the static type map has a v1alpha2 key and a v1
value. -/
theorem typeMapper_some_pkg (e out : GoType) (h : typeMapper e = some out) :
    e.PkgPath = v1alpha2PkgPath ∧ out.PkgPath = v1PkgPath := by
  unfold typeMapper at h
  obtain ⟨kv, hfind, rfl⟩ := Option.map_eq_some'.mp h
  have hmem := List.mem_of_find?_eq_some hfind
  have hkey := List.find?_some hfind
  simp only [decide_eq_true_eq] at hkey
  subst hkey
  exact typeMapperEntries_pkg kv hmem

/-- On a pointer `*T`, nil or not, `V1alpha2ToV1` does not panic: it
returns. -/
theorem V1alpha2ToV1_pointerTo_returns (Marshal : Iface → Except GoError (List Nat))
    (Unmarshal : GoType → List Nat → Option GoError) (e : GoType) (isNil : Bool) :
    (V1alpha2ToV1 Marshal Unmarshal (.typed e.pointerTo isNil)).isSome = true := by
  simp only [V1alpha2ToV1, implementsMarshaler, GoType.pointerTo, GoType.Elem, decide_True]
  repeat' split
  all_goals first | rfl | simp_all

/-- C11, what the code does: on a typed-nil pointer to a v1alpha2 type of the
static type map `V1alpha2ToV1` returns no error, and the value it returns is
the pointer `reflect.New` allocated: a pointer of the mapped v1 type that is
not nil. -/
theorem V1alpha2ToV1_typed_nil_allocates (Marshal : Iface → Except GoError (List Nat))
    (Unmarshal : GoType → List Nat → Option GoError) (e out : GoType)
    (h : typeMapper e = some out) :
    V1alpha2ToV1 Marshal Unmarshal (.typed e.pointerTo true) =
      some (.typed out.pointerTo false, none) := by
  have hp := (typeMapper_some_pkg e out h).1
  have hne := v1PkgPath_ne_v1alpha2PkgPath
  simp [V1alpha2ToV1, IsV1Type, GoType.pointerTo, GoType.Kind, GoType.Elem, hp, h, hne.symm]

/-- Witness for C11 on the input `(*v1alpha2.AttachRequest)(nil)` of
`Test_V1alpha2ToV1`. -/
theorem V1alpha2ToV1_typed_nil_allocates_witness :
    typeMapper v1alpha2AttachRequest = some v1AttachRequest ∧
    V1alpha2ToV1 marshalOk unmarshalOk (.typed v1alpha2AttachRequest.pointerTo true) =
      some (.typed v1AttachRequest.pointerTo false, none) :=
  ⟨by decide, V1alpha2ToV1_typed_nil_allocates _ _ _ _ (by decide)⟩

/-- C12: an input of a type of the CRI v1 package, be it a value of such a
type or a pointer, nil or not, to such a type, is returned as it is, with a nil
error. -/
theorem V1alpha2ToV1_v1_unchanged (Marshal : Iface → Except GoError (List Nat))
    (Unmarshal : GoType → List Nat → Option GoError) (t : GoType) (isNil : Bool)
    (h : (t.Kind ≠ Kind.Ptr ∧ t.PkgPath = v1PkgPath) ∨
      (t.Kind = Kind.Ptr ∧ t.Elem.PkgPath = v1PkgPath)) :
    V1alpha2ToV1 Marshal Unmarshal (.typed t isNil) = some (.typed t isNil, none) := by
  have hv : IsV1Type (.typed t isNil) = true := by
    rcases h with ⟨hk, hp⟩ | ⟨hk, hp⟩ <;> simp [IsV1Type, hk, hp]
  simp [V1alpha2ToV1, hv]

/-- Witness for C12 on the v1 inputs of `Test_V1alpha2ToV1`: a value, a
pointer and a typed-nil pointer. -/
theorem V1alpha2ToV1_v1_unchanged_witness :
    V1alpha2ToV1 marshalOk unmarshalOk (.typed v1AttachRequest false) =
      some (.typed v1AttachRequest false, none) ∧
    V1alpha2ToV1 marshalOk unmarshalOk (.typed v1AttachRequest.pointerTo false) =
      some (.typed v1AttachRequest.pointerTo false, none) ∧
    V1alpha2ToV1 marshalOk unmarshalOk (.typed v1AttachRequest.pointerTo true) =
      some (.typed v1AttachRequest.pointerTo true, none) :=
  ⟨V1alpha2ToV1_v1_unchanged _ _ _ _ (Or.inl ⟨by decide, by decide⟩),
    V1alpha2ToV1_v1_unchanged _ _ _ _ (Or.inr ⟨by decide, by decide⟩),
    V1alpha2ToV1_v1_unchanged _ _ _ _ (Or.inr ⟨by decide, by decide⟩)⟩

/-- C13: when the wire conversion of the input succeeds, `V1alpha2ToV1`
returns an error exactly when the input is untyped nil, or is not of a CRI v1
type and is not a pointer, or a pointer whose element type is not of the
v1alpha2 package, or a pointer to a v1alpha2 type that the static type map does
not list; whatever the wire conversion does, an error returned for a non-nil
input comes with the input itself as value; and the call does not return but
panics exactly on a non-nil value of a pointer kind type other than `*T` whose
element type the static type map lists, so that on every other input it
returns. -/
theorem V1alpha2ToV1_error_iff (Marshal : Iface → Except GoError (List Nat))
    (Unmarshal : GoType → List Nat → Option GoError) (x : Iface)
    (hwire : ∀ out, ConvertByMarshal (Marshal x) (Unmarshal out) = none) :
    ((∃ v err, V1alpha2ToV1 Marshal Unmarshal x = some (v, some err)) ↔
      x = .nil ∨ ∃ t isNil, x = .typed t isNil ∧ IsV1Type x = false ∧
        (t.Kind ≠ Kind.Ptr ∨
          (t.Kind = Kind.Ptr ∧ t.Elem.PkgPath ≠ v1alpha2PkgPath) ∨
          (t.Kind = Kind.Ptr ∧ t.Elem.PkgPath = v1alpha2PkgPath ∧
            typeMapper t.Elem = none))) ∧
    (∀ (M : Iface → Except GoError (List Nat)) (U : GoType → List Nat → Option GoError)
      (v : Iface) (err : GoError),
      V1alpha2ToV1 M U x = some (v, some err) → x ≠ .nil → v = x) ∧
    (∀ (M : Iface → Except GoError (List Nat)) (U : GoType → List Nat → Option GoError),
      V1alpha2ToV1 M U x = none ↔
        ∃ t out, x = .typed t false ∧ t.Kind = Kind.Ptr ∧ t ≠ t.Elem.pointerTo ∧
          typeMapper t.Elem = some out) := by
  have hne := v1PkgPath_ne_v1alpha2PkgPath
  refine ⟨?_, ?_, ?_⟩
  · cases x with
    | nil => simp [V1alpha2ToV1]
    | typed t isNil =>
      simp only [V1alpha2ToV1]
      by_cases hv : IsV1Type (.typed t isNil) = true
      · simp [hv]
      · by_cases hk : t.Kind = Kind.Ptr
        · by_cases hp : t.Elem.PkgPath = v1alpha2PkgPath
          · cases hm : typeMapper t.Elem with
            | none => simp [hv, hk, hp, hm]
            | some out =>
              cases isNil <;> by_cases ha : implementsMarshaler t = true <;>
                simp [hv, hk, hp, hm, hwire, ha]
          · simp [hv, hk, hp]
        · simp [hv, hk]
  · intro M U v err herr hx
    cases x with
    | nil => exact absurd rfl hx
    | typed t isNil =>
      simp only [V1alpha2ToV1] at herr
      by_cases hv : IsV1Type (.typed t isNil) = true
      · simp [hv] at herr
      · by_cases hk : t.Kind = Kind.Ptr
        · by_cases hp : t.Elem.PkgPath = v1alpha2PkgPath
          · cases hm : typeMapper t.Elem with
            | none =>
              simp [hv, hk, hp, hm] at herr
              exact herr.1.symm
            | some out =>
              cases isNil with
              | true => simp [hv, hk, hp, hm] at herr
              | false =>
                by_cases ha : implementsMarshaler t = true
                · cases hc : ConvertByMarshal (M (.typed t false)) (U out) with
                  | none => simp [hv, hk, hp, hm, hc, ha] at herr
                  | some err2 =>
                    simp [hv, hk, hp, hm, hc, ha] at herr
                    exact herr.1.symm
                · simp [hv, hk, hp, hm, ha] at herr
          · simp [hv, hk, hp] at herr
            exact herr.1.symm
        · simp [hv, hk] at herr
          exact herr.1.symm
  · intro M U
    cases x with
    | nil => simp [V1alpha2ToV1]
    | typed t isNil =>
      simp only [V1alpha2ToV1]
      by_cases hk : t.Kind = Kind.Ptr
      · cases hm : typeMapper t.Elem with
        | none =>
          by_cases hv : IsV1Type (.typed t isNil) = true
          · simp [hv, hm]
          · by_cases hp : t.Elem.PkgPath = v1alpha2PkgPath <;> simp [hv, hk, hp, hm]
        | some out =>
          have hp := (typeMapper_some_pkg _ _ hm).1
          have hv : IsV1Type (.typed t isNil) = false := by
            simp [IsV1Type, hk, hp, hne.symm]
          cases isNil with
          | true => simp [hv, hk, hp, hm]
          | false =>
            by_cases ha : t = t.Elem.pointerTo
            · have ha2 : implementsMarshaler t = true := by simp [implementsMarshaler, ← ha]
              cases hc : ConvertByMarshal (M (.typed t false)) (U out) <;>
                simp [hv, hk, hp, hm, ha2, hc, ← ha]
            · have ha2 : implementsMarshaler t = false := by simp [implementsMarshaler, ha]
              simp [hv, hk, hp, hm, ha2, ha]
      · by_cases hv : IsV1Type (.typed t isNil) = true
        · simp [hv, hk]
        · simp [hv, hk]

/-- Witness for C13 on inputs of `Test_V1alpha2ToV1`: the v1alpha2 value (not
a pointer) and the pointer to `struct{}` get an error and come back as they
are, the pointer to a v1alpha2 message gets none; and on a non-nil value of a
defined pointer type over a v1alpha2 message the call panics. -/
theorem V1alpha2ToV1_error_iff_witness :
    (∀ out, ConvertByMarshal (marshalOk (.typed v1alpha2AttachRequest false))
      (unmarshalOk out) = none) ∧
    V1alpha2ToV1 marshalOk unmarshalOk (.typed v1alpha2AttachRequest false) =
      some (.typed v1alpha2AttachRequest false, some (.msg "not a pointer type")) ∧
    (∃ v err, V1alpha2ToV1 marshalOk unmarshalOk (.typed emptyStruct.pointerTo false) =
      some (v, some err)) ∧
    (∀ v err, V1alpha2ToV1 marshalOk unmarshalOk (.typed emptyStruct.pointerTo false) =
      some (v, some err) → v = .typed emptyStruct.pointerTo false) ∧
    (¬ ∃ v err,
      V1alpha2ToV1 marshalOk unmarshalOk (.typed v1alpha2AttachRequest.pointerTo false) =
        some (v, some err)) ∧
    V1alpha2ToV1 marshalOk unmarshalOk (.typed v1alpha2AttachRequest.pointerTo false) =
      some (.typed v1AttachRequest.pointerTo false, none) ∧
    V1alpha2ToV1 marshalOk unmarshalOk (.typed definedPointerType false) = none :=
  ⟨fun _ => rfl, by decide,
    (V1alpha2ToV1_error_iff marshalOk unmarshalOk _ (fun _ => rfl)).1.mpr
      (Or.inr ⟨_, _, rfl, by decide, Or.inr (Or.inl ⟨by decide, by decide⟩)⟩),
    fun v err h =>
      (V1alpha2ToV1_error_iff marshalOk unmarshalOk _ (fun _ => rfl)).2.1 marshalOk
        unmarshalOk v err h (by decide),
    fun h => by
      rcases (V1alpha2ToV1_error_iff marshalOk unmarshalOk
        (.typed v1alpha2AttachRequest.pointerTo false) (fun _ => rfl)).1.mp h with
        h1 | ⟨t, isNil, hx, -, hk⟩
      · cases h1
      · cases hx
        revert hk
        decide,
    by decide,
    ((V1alpha2ToV1_error_iff marshalOk unmarshalOk _ (fun _ => rfl)).2.2 marshalOk
      unmarshalOk).mpr ⟨_, v1AttachRequest, rfl, by decide, by decide, by decide⟩⟩

/-! ## Interception pipeline -/

/-- The pre-hook stage, case by case: no hook call, an abort on a `PolicyFail`
error, an ignored error, a dispatch without response, a dispatch whose response
rewrites the request. -/
theorem preHookStage_cases {σ V : Type} (c : Collaborators σ V) (ex : Executor σ V)
    (path : RuntimeRequestPath) (op : CallHookPluginOperation) (request : V) (s : σ) :
    (op ≠ .ShouldCallHookPlugin ∧
      preHookStage c ex path op request s =
        { returned := none, request := request, state := s, trace := [] }) ∨
    (op = .ShouldCallHookPlugin ∧ ∃ hr rsp e s1,
      preHookStage c ex path op request s =
        { returned := some (none, some (.hookServer e)), request := request, state := s1,
          trace := [.Dispatch path .PreHook hr rsp (some e) .PolicyFail] }) ∨
    (op = .ShouldCallHookPlugin ∧ ∃ hr rsp e pol s1, pol ≠ .PolicyFail ∧
      preHookStage c ex path op request s =
        { returned := none, request := request, state := s1,
          trace := [.Dispatch path .PreHook hr rsp (some e) pol] }) ∨
    (op = .ShouldCallHookPlugin ∧ ∃ hr pol s1,
      preHookStage c ex path op request s =
        { returned := none, request := request, state := s1,
          trace := [.Dispatch path .PreHook hr none none pol] }) ∨
    (op = .ShouldCallHookPlugin ∧ ∃ hr rsp pol uerr r s1,
      preHookStage c ex path op request s =
        { returned := none, request := r, state := s1,
          trace := [.Dispatch path .PreHook hr (some rsp) none pol,
            .UpdateRequest rsp request uerr] }) := by
  cases op
  · exact Or.inl ⟨by decide, rfl⟩
  · right
    simp only [preHookStage, true_and]
    generalize c.Dispatch path .PreHook (ex.GenerateHookRequest s) s = d
    obtain ⟨⟨rsp, derr, pol⟩, s2⟩ := d
    cases derr with
    | none =>
      cases rsp with
      | none => exact Or.inr (Or.inr (Or.inl ⟨_, _, _, rfl⟩))
      | some rsp => exact Or.inr (Or.inr (Or.inr ⟨_, _, _, _, _, _, rfl⟩))
    | some e =>
      cases pol with
      | PolicyFail => exact Or.inl ⟨_, _, _, _, rfl⟩
      | PolicyIgnore => exact Or.inr (Or.inl ⟨_, _, _, _, _, by simp, rfl⟩)
  · exact Or.inl ⟨by decide, rfl⟩

/-- The backend stage, case by case: the handler succeeds and the checkpoint
follows, or the handler fails and nothing follows. -/
theorem backendStage_cases {σ V : Type} (ex : Executor σ V) (handler : UnaryHandler σ V)
    (request : V) (s : σ) :
    ∃ res s1, (∃ cperr, backendStage ex handler request s =
        ((res, none), s1, [.handler request res none, .ResourceCheckPoint res cperr])) ∨
      (∃ e, backendStage ex handler request s =
        ((res, some e), s1, [.handler request res (some e)])) := by
  simp only [backendStage]
  generalize handler request s = h
  obtain ⟨⟨res, herr⟩, s2⟩ := h
  cases herr with
  | none => exact ⟨res, _, Or.inl ⟨_, rfl⟩⟩
  | some e => exact ⟨res, _, Or.inr ⟨e, rfl⟩⟩

/-- The post-hook stage, case by case. -/
theorem postHookStage_cases {σ V : Type} (c : Collaborators σ V) (ex : Executor σ V)
    (path : RuntimeRequestPath) (op : CallHookPluginOperation) (s : σ) :
    (op ≠ .ShouldCallHookPlugin ∧ postHookStage c ex path op s = (s, [])) ∨
    (op = .ShouldCallHookPlugin ∧ ∃ hr rsp e pol s1,
      postHookStage c ex path op s = (s1, [.Dispatch path .PostHook hr rsp e pol])) := by
  cases op
  · exact Or.inl ⟨by decide, rfl⟩
  · exact Or.inr ⟨rfl, _, _, _, _, _, rfl⟩
  · exact Or.inl ⟨by decide, rfl⟩

/-- The body of the pipeline when the pre-hook stage does not return: the
backend handler is called on the request the pre-hook stage left, then the
checkpoint when the handler succeeded, then the post-hook stage. -/
theorem interceptBody_continue {σ V : Type} (c : Collaborators σ V) (ex : Executor σ V)
    (path : RuntimeRequestPath) (op : CallHookPluginOperation) (request : V)
    (handler : UnaryHandler σ V) (s : σ) (r : V) (s1 : σ) (pre : List (Step V))
    (hpre : preHookStage c ex path op request s =
      { returned := none, request := r, state := s1, trace := pre }) :
    ∃ res err cp post s2,
      interceptBody c ex path op request handler s =
        { returned := some (res, err), request := r, state := s2,
          trace := pre ++ (.handler r res err :: cp) ++ post } ∧
      ((err = none ∧ ∃ cperr, cp = [.ResourceCheckPoint res cperr]) ∨
        (err ≠ none ∧ cp = [])) ∧
      ((op = .ShouldCallHookPlugin ∧ ∃ hr rsp e pol,
          post = [.Dispatch path .PostHook hr rsp e pol]) ∨
        (op ≠ .ShouldCallHookPlugin ∧ post = [])) := by
  simp only [interceptBody, hpre]
  obtain ⟨res, s3, ⟨cperr, hb⟩ | ⟨e, hb⟩⟩ := backendStage_cases ex handler r s1
  · rw [hb]
    rcases postHookStage_cases c ex path op s3 with
      ⟨hop, hpost⟩ | ⟨hop, hr, rsp, e, pol, s4, hpost⟩
    · rw [hpost]
      exact ⟨res, none, [.ResourceCheckPoint res cperr], [], s3, by simp,
        Or.inl ⟨rfl, cperr, rfl⟩, Or.inr ⟨hop, rfl⟩⟩
    · rw [hpost]
      exact ⟨res, none, [.ResourceCheckPoint res cperr],
        [.Dispatch path .PostHook hr rsp e pol], s4, by simp,
        Or.inl ⟨rfl, cperr, rfl⟩, Or.inl ⟨hop, hr, rsp, e, pol, rfl⟩⟩
  · rw [hb]
    rcases postHookStage_cases c ex path op s3 with
      ⟨hop, hpost⟩ | ⟨hop, hr, rsp, e2, pol, s4, hpost⟩
    · rw [hpost]
      exact ⟨res, some e, [], [], s3, by simp, Or.inr ⟨by simp, rfl⟩, Or.inr ⟨hop, rfl⟩⟩
    · rw [hpost]
      exact ⟨res, some e, [], [.Dispatch path .PostHook hr rsp e2 pol], s4, by simp,
        Or.inr ⟨by simp, rfl⟩, Or.inl ⟨hop, hr, rsp, e2, pol, rfl⟩⟩

/-- The shape of every run of the pipeline: either the pre-hook stage aborts
it, or the backend handler is called between the pre-hook calls and the
post-hook call; the deferred deletion always comes last. -/
theorem intercept_shape {σ V : Type} (c : Collaborators σ V)
    (serviceType : RuntimeServiceType) (request : V) (handler : UnaryHandler σ V) (s : σ) :
    ∃ op perr,
      (∃ hr rsp e, op = .ShouldCallHookPlugin ∧
        (InterceptRuntimeRequest c serviceType request handler s).trace =
          [.ParseRequest request op perr,
            .Dispatch (getRuntimeHookInfo serviceType).1 .PreHook hr rsp (some e) .PolicyFail,
            .DeleteCheckpointIfNeed request] ∧
        (InterceptRuntimeRequest c serviceType request handler s).res = none ∧
        (InterceptRuntimeRequest c serviceType request handler s).err =
          some (.hookServer e)) ∨
      (∃ pre r res err cp post,
        (InterceptRuntimeRequest c serviceType request handler s).trace =
          .ParseRequest request op perr :: (pre ++ (.handler r res err :: cp) ++ post ++
            [.DeleteCheckpointIfNeed r]) ∧
        (InterceptRuntimeRequest c serviceType request handler s).res = res ∧
        (InterceptRuntimeRequest c serviceType request handler s).err = err ∧
        ((op ≠ .ShouldCallHookPlugin ∧ pre = [] ∧ r = request) ∨
          (op = .ShouldCallHookPlugin ∧ r = request ∧ ∃ hr rsp derr pol,
            pre = [.Dispatch (getRuntimeHookInfo serviceType).1 .PreHook hr rsp derr pol] ∧
            (derr = none → rsp = none) ∧ (derr ≠ none → pol ≠ .PolicyFail)) ∨
          (op = .ShouldCallHookPlugin ∧ ∃ hr rsp pol uerr,
            pre = [.Dispatch (getRuntimeHookInfo serviceType).1 .PreHook hr (some rsp) none pol,
              .UpdateRequest rsp request uerr])) ∧
        ((err = none ∧ ∃ cperr, cp = [.ResourceCheckPoint res cperr]) ∨
          (err ≠ none ∧ cp = [])) ∧
        ((op = .ShouldCallHookPlugin ∧ ∃ hr rsp e pol,
            post = [.Dispatch (getRuntimeHookInfo serviceType).1 .PostHook hr rsp e pol]) ∨
          (op ≠ .ShouldCallHookPlugin ∧ post = []))) := by
  simp only [InterceptRuntimeRequest]
  generalize (c.NewRuntimeResourceExecutor (getRuntimeHookInfo serviceType).2) = ex
  generalize (getRuntimeHookInfo serviceType).1 = path
  generalize ex.ParseRequest request s = p
  obtain ⟨⟨op, perr⟩, s1⟩ := p
  refine ⟨op, perr, ?_⟩
  rcases preHookStage_cases c ex path op request s1 with
    ⟨hop, hpre⟩ | ⟨hop, hr, rsp, e, s2, hpre⟩ | ⟨hop, hr, rsp, e, pol, s2, hpol, hpre⟩ |
    ⟨hop, hr, pol, s2, hpre⟩ | ⟨hop, hr, rsp, pol, uerr, r, s2, hpre⟩
  · right
    obtain ⟨res, err, cp, post, s3, hbody, hcp, hpost⟩ :=
      interceptBody_continue c ex path op request handler s1 _ _ _ hpre
    simp only [hbody]
    exact ⟨[], request, res, err, cp, post, by simp, rfl, rfl, Or.inl ⟨hop, rfl, rfl⟩,
      hcp, hpost⟩
  · left
    simp only [interceptBody, hpre]
    exact ⟨hr, rsp, e, hop, by simp, rfl, rfl⟩
  · right
    obtain ⟨res, err, cp, post, s3, hbody, hcp, hpost⟩ :=
      interceptBody_continue c ex path op request handler s1 _ _ _ hpre
    simp only [hbody]
    exact ⟨_, request, res, err, cp, post, by simp, rfl, rfl,
      Or.inr (Or.inl ⟨hop, rfl, hr, rsp, some e, pol, rfl, by simp, fun _ => hpol⟩),
      hcp, hpost⟩
  · right
    obtain ⟨res, err, cp, post, s3, hbody, hcp, hpost⟩ :=
      interceptBody_continue c ex path op request handler s1 _ _ _ hpre
    simp only [hbody]
    exact ⟨_, request, res, err, cp, post, by simp, rfl, rfl,
      Or.inr (Or.inl ⟨hop, rfl, hr, none, none, pol, rfl, by simp, by simp⟩),
      hcp, hpost⟩
  · right
    obtain ⟨res, err, cp, post, s3, hbody, hcp, hpost⟩ :=
      interceptBody_continue c ex path op request handler s1 _ _ _ hpre
    simp only [hbody]
    exact ⟨_, r, res, err, cp, post, by simp, rfl, rfl,
      Or.inr (Or.inr ⟨hop, hr, rsp, pol, uerr, rfl⟩),
      hcp, hpost⟩

/-- C14: when the pre-hook `Dispatch` of a run returned an error together with
`PolicyFail`, the run parsed the request to `ShouldCallHookPlugin`, it returns a
nil response and the error `hook server err: ...` built from the plugin error,
and it calls neither the backend handler nor `ResourceCheckPoint` nor the
post-hook `Dispatch`. -/
theorem InterceptRuntimeRequest_policyFail_aborts {σ V : Type} (c : Collaborators σ V)
    (serviceType : RuntimeServiceType) (request : V) (handler : UnaryHandler σ V) (s : σ)
    (path : RuntimeRequestPath) (hr rsp : Option V) (e : GoError)
    (hpre : Step.Dispatch path .PreHook hr rsp (some e) .PolicyFail ∈
      (InterceptRuntimeRequest c serviceType request handler s).trace) :
    (∃ perr, Step.ParseRequest request .ShouldCallHookPlugin perr ∈
      (InterceptRuntimeRequest c serviceType request handler s).trace) ∧
    (InterceptRuntimeRequest c serviceType request handler s).res = none ∧
    (InterceptRuntimeRequest c serviceType request handler s).err = some (.hookServer e) ∧
    ∀ x ∈ (InterceptRuntimeRequest c serviceType request handler s).trace,
      x.kind ≠ .Handler ∧ x.kind ≠ .ResourceCheckPoint ∧ x.kind ≠ .PostHook := by
  obtain ⟨op, perr2, h⟩ := intercept_shape c serviceType request handler s
  rcases h with ⟨hr2, rsp2, e2, hop, htr, hres, herr⟩ |
    ⟨pre, r, res, err, cp, post, htr, hres, herr, hpre2, hcp, hpost⟩
  · rw [htr] at hpre
    simp at hpre
    obtain ⟨-, -, -, rfl⟩ := hpre
    subst hop
    refine ⟨⟨perr2, ?_⟩, hres, herr, ?_⟩
    · rw [htr]
      simp
    · rw [htr]
      simp [Step.kind]
  · exfalso
    rw [htr] at hpre
    rcases hpre2 with ⟨_, rfl, _⟩ | ⟨_, _, hr3, rsp3, derr, pol, rfl, _, hpol⟩ |
      ⟨_, hr3, rsp3, pol, uerr, rfl⟩ <;>
    rcases hcp with ⟨_, cperr, rfl⟩ | ⟨_, rfl⟩ <;>
    rcases hpost with ⟨_, hr4, rsp4, e4, pol4, rfl⟩ | ⟨_, rfl⟩ <;>
    simp at hpre <;> simp_all

/-- Witness for C14: a StopPodSandbox whose pre-hook plugin fails with
`PolicyFail`. -/
theorem InterceptRuntimeRequest_policyFail_aborts_witness :
    Step.Dispatch .StopPodSandbox .PreHook (some "hook request") none (some pluginError)
      .PolicyFail ∈ abortedRun.trace ∧
    (∃ perr, Step.ParseRequest "request" .ShouldCallHookPlugin perr ∈ abortedRun.trace) ∧
    abortedRun.res = none ∧ abortedRun.err = some (.hookServer pluginError) ∧
    ∀ x ∈ abortedRun.trace,
      x.kind ≠ .Handler ∧ x.kind ≠ .ResourceCheckPoint ∧ x.kind ≠ .PostHook :=
  ⟨by decide, InterceptRuntimeRequest_policyFail_aborts _ _ _ _ _ .StopPodSandbox
    (some "hook request") none pluginError (by decide)⟩

/-- The backend stage returns what the handler returned on the request and
the state it was given, and records that call first; the checkpoint follows
when the handler returned no error. -/
theorem backendStage_handler {σ V : Type} (ex : Executor σ V) (handler : UnaryHandler σ V)
    (request : V) (s : σ) :
    ∃ s1 cp, backendStage ex handler request s =
        ((handler request s).1, s1,
          Step.handler request (handler request s).1.1 (handler request s).1.2 :: cp) ∧
      (cp = [] ∨ ∃ cperr, cp = [.ResourceCheckPoint (handler request s).1.1 cperr]) := by
  simp only [backendStage]
  generalize handler request s = h
  obtain ⟨⟨res, herr⟩, s2⟩ := h
  cases herr with
  | none => exact ⟨_, _, rfl, Or.inr ⟨_, rfl⟩⟩
  | some e => exact ⟨_, _, rfl, Or.inl rfl⟩

/-- The body of the pipeline when the pre-hook `Dispatch` returned an error
with a policy other than `PolicyFail`: nothing rewrites the request, and the
backend handler is called on it in the state the `Dispatch` left. -/
theorem interceptBody_ignored {σ V : Type} (c : Collaborators σ V) (ex : Executor σ V)
    (p : RuntimeRequestPath) (op : CallHookPluginOperation) (request : V)
    (handler : UnaryHandler σ V) (s : σ)
    (path : RuntimeRequestPath) (hr rsp : Option V) (e : GoError) (pol : FailurePolicy)
    (hpre : Step.Dispatch path .PreHook hr rsp (some e) pol ∈
      (interceptBody c ex p op request handler s).trace)
    (hpol : pol ≠ .PolicyFail) :
    ∃ s1 cp hr2 rsp2 e2 pol2,
      interceptBody c ex p op request handler s =
        { returned := some
            (handler request (c.Dispatch p .PreHook (ex.GenerateHookRequest s) s).2).1,
          request := request, state := s1,
          trace := Step.Dispatch path .PreHook hr rsp (some e) pol ::
            Step.handler request
              (handler request (c.Dispatch p .PreHook (ex.GenerateHookRequest s) s).2).1.1
              (handler request (c.Dispatch p .PreHook (ex.GenerateHookRequest s) s).2).1.2 ::
            (cp ++ [.Dispatch p .PostHook hr2 rsp2 e2 pol2]) } ∧
      (cp = [] ∨ ∃ res cperr, cp = [.ResourceCheckPoint res cperr]) := by
  cases op with
  | Unknown =>
    exfalso
    simp only [interceptBody, preHookStage] at hpre
    obtain ⟨s1, cp, hb, hcp⟩ := backendStage_handler ex handler request s
    rw [hb] at hpre
    rcases hcp with rfl | ⟨cperr, rfl⟩ <;> simp [postHookStage] at hpre
  | ShouldNotCallHookPlugin =>
    exfalso
    simp only [interceptBody, preHookStage] at hpre
    obtain ⟨s1, cp, hb, hcp⟩ := backendStage_handler ex handler request s
    rw [hb] at hpre
    rcases hcp with rfl | ⟨cperr, rfl⟩ <;> simp [postHookStage] at hpre
  | ShouldCallHookPlugin =>
    simp only [interceptBody, preHookStage] at hpre ⊢
    generalize c.Dispatch p .PreHook (ex.GenerateHookRequest s) s = d at hpre ⊢
    obtain ⟨⟨rsp2, derr, pol2⟩, s2⟩ := d
    cases derr with
    | none =>
      exfalso
      cases rsp2 with
      | none =>
        dsimp only at hpre
        obtain ⟨s1, cp, hb, hcp⟩ := backendStage_handler ex handler request s2
        rw [hb] at hpre
        rcases hcp with rfl | ⟨cperr, rfl⟩ <;> simp [postHookStage] at hpre
      | some r2 =>
        dsimp only at hpre
        obtain ⟨s1, cp, hb, hcp⟩ := backendStage_handler ex handler
          (ex.UpdateRequest r2 request s2).1.2 (ex.UpdateRequest r2 request s2).2
        rw [hb] at hpre
        rcases hcp with rfl | ⟨cperr, rfl⟩ <;> simp [postHookStage] at hpre
    | some e2 =>
      cases pol2 with
      | PolicyFail =>
        exfalso
        simp at hpre
        exact hpol hpre.2.2.2.2
      | PolicyIgnore =>
        dsimp only at hpre ⊢
        simp only [reduceCtorEq, if_false] at hpre ⊢
        obtain ⟨s1, cp, hb, hcp⟩ := backendStage_handler ex handler request s2
        rw [hb] at hpre ⊢
        simp only [postHookStage] at hpre ⊢
        have hd : Step.Dispatch path .PreHook hr rsp (some e) pol =
            Step.Dispatch p .PreHook (ex.GenerateHookRequest s) rsp2 (some e2) .PolicyIgnore := by
          rcases hcp with rfl | ⟨cperr, rfl⟩ <;> simp at hpre <;>
          (obtain ⟨h1, h2, h3, h4, h5⟩ := hpre; rw [h1, h2, h3, h4, h5])
        rw [hd]
        refine ⟨_, cp, _, _, _, _, rfl, ?_⟩
        rcases hcp with rfl | ⟨cperr, rfl⟩
        · exact Or.inl rfl
        · exact Or.inr ⟨_, _, rfl⟩

/-- C15: when the pre-hook `Dispatch` of a run returned an error with a policy
other than `PolicyFail`, whether or not a response came with it, the run
returns the response and the error that the backend handler returns when it is
called on the request as it was passed in, in the state the pre-hook `Dispatch`
left; the run makes that call and no other call of the handler, and
`UpdateRequest` is not called. -/
theorem InterceptRuntimeRequest_ignored_failure_calls_backend {σ V : Type}
    (c : Collaborators σ V) (serviceType : RuntimeServiceType) (request : V)
    (handler : UnaryHandler σ V) (s : σ)
    (path : RuntimeRequestPath) (hr rsp : Option V) (e : GoError) (pol : FailurePolicy)
    (hpre : Step.Dispatch path .PreHook hr rsp (some e) pol ∈
      (InterceptRuntimeRequest c serviceType request handler s).trace)
    (hpol : pol ≠ .PolicyFail) :
    (InterceptRuntimeRequest c serviceType request handler s).res =
      (handler request
        (c.Dispatch (getRuntimeHookInfo serviceType).1 .PreHook
          ((c.NewRuntimeResourceExecutor (getRuntimeHookInfo serviceType).2).GenerateHookRequest
            ((c.NewRuntimeResourceExecutor (getRuntimeHookInfo serviceType).2).ParseRequest
              request s).2)
          ((c.NewRuntimeResourceExecutor (getRuntimeHookInfo serviceType).2).ParseRequest
            request s).2).2).1.1 ∧
    (InterceptRuntimeRequest c serviceType request handler s).err =
      (handler request
        (c.Dispatch (getRuntimeHookInfo serviceType).1 .PreHook
          ((c.NewRuntimeResourceExecutor (getRuntimeHookInfo serviceType).2).GenerateHookRequest
            ((c.NewRuntimeResourceExecutor (getRuntimeHookInfo serviceType).2).ParseRequest
              request s).2)
          ((c.NewRuntimeResourceExecutor (getRuntimeHookInfo serviceType).2).ParseRequest
            request s).2).2).1.2 ∧
    Step.handler request (InterceptRuntimeRequest c serviceType request handler s).res
        (InterceptRuntimeRequest c serviceType request handler s).err ∈
      (InterceptRuntimeRequest c serviceType request handler s).trace ∧
    ((InterceptRuntimeRequest c serviceType request handler s).trace.map Step.kind).count
      .Handler = 1 ∧
    (∀ x ∈ (InterceptRuntimeRequest c serviceType request handler s).trace,
      x.kind ≠ .UpdateRequest) := by
  simp only [InterceptRuntimeRequest] at hpre ⊢
  generalize c.NewRuntimeResourceExecutor (getRuntimeHookInfo serviceType).2 = ex at hpre ⊢
  generalize (getRuntimeHookInfo serviceType).1 = p at hpre ⊢
  generalize ex.ParseRequest request s = pr at hpre ⊢
  obtain ⟨⟨op, perr⟩, s1⟩ := pr
  dsimp only at hpre ⊢
  have hpre2 : Step.Dispatch path .PreHook hr rsp (some e) pol ∈
      (interceptBody c ex p op request handler s1).trace := by
    simp at hpre
    exact hpre
  obtain ⟨s2, cp, hr2, rsp2, e2, pol2, hbody, hcp⟩ :=
    interceptBody_ignored c ex p op request handler s1 path hr rsp e pol hpre2 hpol
  rw [hbody]
  refine ⟨rfl, rfl, by simp, ?_, ?_⟩ <;>
  rcases hcp with rfl | ⟨res, cperr, rfl⟩ <;> simp [Step.kind]

/-- Witness for C15: scenario 2, a CreateContainer whose pre-hook plugin fails
with `PolicyIgnore`, the failing dispatch carrying a response: the run returns
the response of the backend handler and a nil error. -/
theorem InterceptRuntimeRequest_ignored_failure_calls_backend_witness :
    Step.Dispatch .CreateContainer .PreHook (some "hook request") (some "hook response")
      (some pluginError) .PolicyIgnore ∈ ignoredFailureRun.trace ∧
    FailurePolicy.PolicyIgnore ≠ FailurePolicy.PolicyFail ∧
    ignoredFailureRun.res = some "response" ∧
    ignoredFailureRun.err = none ∧
    Step.handler "request" (some "response") none ∈ ignoredFailureRun.trace ∧
    (ignoredFailureRun.trace.map Step.kind).count .Handler = 1 ∧
    (∀ x ∈ ignoredFailureRun.trace, x.kind ≠ .UpdateRequest) :=
  ⟨by decide, by decide,
    InterceptRuntimeRequest_ignored_failure_calls_backend _ _ _ _ _ .CreateContainer
      (some "hook request") (some "hook response") pluginError .PolicyIgnore
      (by decide) (by decide)⟩

/-- C16, as stated, fails: in scenario 2 (CreateContainer, the pre-hook plugin
fails with `PolicyIgnore`) the run issues a `Dispatch` with stage
`PostHook`. -/
theorem InterceptRuntimeRequest_postHook_not_skipped :
    Step.Dispatch .CreateContainer .PreHook (some "hook request") (some "hook response")
      (some pluginError) .PolicyIgnore ∈ ignoredFailureRun.trace ∧
    Step.Dispatch .CreateContainer .PostHook (some "hook request") none none
      .PolicyIgnore ∈ ignoredFailureRun.trace := by
  decide

/-- C16, amended: when the pre-hook `Dispatch` of a run returned an error with
a policy other than `PolicyFail`, the post-hook stage is not skipped: the run
issues exactly one `Dispatch` with stage `PostHook`, after the backend handler
and right before the deferred deletion. -/
theorem InterceptRuntimeRequest_postHook_still_issued {σ V : Type}
    (c : Collaborators σ V) (serviceType : RuntimeServiceType) (request : V)
    (handler : UnaryHandler σ V) (s : σ)
    (path : RuntimeRequestPath) (hr rsp : Option V) (e : GoError) (pol : FailurePolicy)
    (hpre : Step.Dispatch path .PreHook hr rsp (some e) pol ∈
      (InterceptRuntimeRequest c serviceType request handler s).trace)
    (hpol : pol ≠ .PolicyFail) :
    ∃ init hr2 rsp2 e2 pol2,
      (InterceptRuntimeRequest c serviceType request handler s).trace =
        init ++ [.Dispatch (getRuntimeHookInfo serviceType).1 .PostHook hr2 rsp2 e2 pol2,
          .DeleteCheckpointIfNeed request] ∧
      (∃ res err, Step.handler request res err ∈ init) ∧
      ∀ x ∈ init, x.kind ≠ .PostHook := by
  obtain ⟨op, perr2, h⟩ := intercept_shape c serviceType request handler s
  rcases h with ⟨hr2, rsp2, e2, hop, htr, hres, herr⟩ |
    ⟨pre, r, res, err, cp, post, htr, hres, herr, hpre2, hcp, hpost⟩
  · exfalso
    rw [htr] at hpre
    simp at hpre
    exact hpol hpre.2.2.2.2
  · rw [htr] at hpre
    rw [htr]
    rcases hpre2 with ⟨hop, rfl, rfl⟩ | ⟨hop, rfl, hr3, rsp3, derr, pol3, rfl, _, _⟩ |
      ⟨hop, hr3, rsp3, pol3, uerr, rfl⟩
    · exfalso
      rcases hcp with ⟨_, cperr, rfl⟩ | ⟨_, rfl⟩ <;>
      rcases hpost with ⟨hop2, hr4, rsp4, e4, pol4, rfl⟩ | ⟨_, rfl⟩ <;>
      first
        | exact hop hop2
        | simp at hpre
    · rcases hpost with ⟨_, hr4, rsp4, e4, pol4, rfl⟩ | ⟨hop2, rfl⟩
      · refine ⟨.ParseRequest r op perr2 ::
          ([.Dispatch (getRuntimeHookInfo serviceType).1 .PreHook hr3 rsp3 derr pol3] ++
            (.handler r res err :: cp)), hr4, rsp4, e4, pol4, by simp,
          ⟨res, err, by simp⟩, ?_⟩
        rcases hcp with ⟨_, cperr, rfl⟩ | ⟨_, rfl⟩ <;> simp [Step.kind]
      · exact absurd hop hop2
    · exfalso
      rcases hcp with ⟨_, cperr, rfl⟩ | ⟨_, rfl⟩ <;>
      rcases hpost with ⟨_, hr4, rsp4, e4, pol4, rfl⟩ | ⟨hop2, rfl⟩ <;>
      first
        | exact hop2 hop
        | simp at hpre

/-- Witness for the amended C16: scenario 2. -/
theorem InterceptRuntimeRequest_postHook_still_issued_witness :
    Step.Dispatch .CreateContainer .PreHook (some "hook request") (some "hook response")
      (some pluginError) .PolicyIgnore ∈ ignoredFailureRun.trace ∧
    FailurePolicy.PolicyIgnore ≠ FailurePolicy.PolicyFail ∧
    ∃ init hr2 rsp2 e2 pol2,
      ignoredFailureRun.trace =
        init ++ [.Dispatch (getRuntimeHookInfo .CreateContainer).1 .PostHook hr2 rsp2 e2 pol2,
          .DeleteCheckpointIfNeed "request"] ∧
      (∃ res err, Step.handler "request" res err ∈ init) ∧
      ∀ x ∈ init, x.kind ≠ .PostHook :=
  ⟨by decide, by decide,
    InterceptRuntimeRequest_postHook_still_issued _ _ _ _ _ .CreateContainer
      (some "hook request") (some "hook response") pluginError .PolicyIgnore
      (by decide) (by decide)⟩

/-- C17: when the backend handler of a run returned an error, the run returns
the response and the error of the handler as they are, and it does not call
`ResourceCheckPoint`. -/
theorem InterceptRuntimeRequest_backend_error {σ V : Type}
    (c : Collaborators σ V) (serviceType : RuntimeServiceType) (request : V)
    (handler : UnaryHandler σ V) (s : σ) (r : V) (res : Option V) (e : GoError)
    (hh : Step.handler r res (some e) ∈
      (InterceptRuntimeRequest c serviceType request handler s).trace) :
    (InterceptRuntimeRequest c serviceType request handler s).res = res ∧
    (InterceptRuntimeRequest c serviceType request handler s).err = some e ∧
    ∀ x ∈ (InterceptRuntimeRequest c serviceType request handler s).trace,
      x.kind ≠ .ResourceCheckPoint := by
  obtain ⟨op, perr2, h⟩ := intercept_shape c serviceType request handler s
  rcases h with ⟨hr2, rsp2, e2, hop, htr, hres, herr⟩ |
    ⟨pre, r2, res2, err2, cp, post, htr, hres, herr, hpre2, hcp, hpost⟩
  · exfalso
    rw [htr] at hh
    simp at hh
  · rw [htr] at hh
    rw [htr, hres, herr]
    rcases hpre2 with ⟨_, rfl, rfl⟩ | ⟨_, rfl, hr3, rsp3, derr, pol3, rfl, _, _⟩ |
      ⟨_, hr3, rsp3, pol3, uerr, rfl⟩ <;>
    rcases hcp with ⟨rfl, cperr, rfl⟩ | ⟨_, rfl⟩ <;>
    rcases hpost with ⟨_, hr4, rsp4, e4, pol4, rfl⟩ | ⟨_, rfl⟩ <;>
    simp at hh <;>
    (obtain ⟨-, rfl, rfl⟩ := hh; simp [Step.kind])

/-- Witness for C17: a CreateContainer whose backend handler fails. -/
theorem InterceptRuntimeRequest_backend_error_witness :
    Step.handler "request+hook response" none (some (.msg "backend failed")) ∈
      backendErrorRun.trace ∧
    backendErrorRun.res = none ∧
    backendErrorRun.err = some (.msg "backend failed") ∧
    ∀ x ∈ backendErrorRun.trace, x.kind ≠ .ResourceCheckPoint :=
  ⟨by decide,
    InterceptRuntimeRequest_backend_error _ _ _ _ _ "request+hook response" none
      (.msg "backend failed") (by decide)⟩

/-- C18: when the backend handler of a run succeeded, the run calls
`ResourceCheckPoint` on the response of the handler and, whatever the
checkpoint returns, it returns that response with a nil error. -/
theorem InterceptRuntimeRequest_backend_success {σ V : Type}
    (c : Collaborators σ V) (serviceType : RuntimeServiceType) (request : V)
    (handler : UnaryHandler σ V) (s : σ) (r : V) (res : Option V)
    (hh : Step.handler r res none ∈
      (InterceptRuntimeRequest c serviceType request handler s).trace) :
    (InterceptRuntimeRequest c serviceType request handler s).res = res ∧
    (InterceptRuntimeRequest c serviceType request handler s).err = none ∧
    ∃ cperr, Step.ResourceCheckPoint res cperr ∈
      (InterceptRuntimeRequest c serviceType request handler s).trace := by
  obtain ⟨op, perr2, h⟩ := intercept_shape c serviceType request handler s
  rcases h with ⟨hr2, rsp2, e2, hop, htr, hres, herr⟩ |
    ⟨pre, r2, res2, err2, cp, post, htr, hres, herr, hpre2, hcp, hpost⟩
  · exfalso
    rw [htr] at hh
    simp at hh
  · rw [htr] at hh
    rw [htr, hres, herr]
    rcases hpre2 with ⟨_, rfl, rfl⟩ | ⟨_, rfl, hr3, rsp3, derr, pol3, rfl, _, _⟩ |
      ⟨_, hr3, rsp3, pol3, uerr, rfl⟩ <;>
    rcases hcp with ⟨rfl, cperr, rfl⟩ | ⟨hne, rfl⟩ <;>
    rcases hpost with ⟨_, hr4, rsp4, e4, pol4, rfl⟩ | ⟨_, rfl⟩ <;>
    simp at hh <;>
    first
      | (obtain ⟨-, rfl⟩ := hh; exact ⟨rfl, rfl, cperr, by simp⟩)
      | (obtain ⟨-, -, rfl⟩ := hh; exact absurd rfl hne)

/-- Witness for C18: a CreateContainer whose backend handler succeeds and
whose checkpoint returns an error. -/
theorem InterceptRuntimeRequest_backend_success_witness :
    Step.handler "request+hook response" (some "response") none ∈
      checkpointErrorRun.trace ∧
    Step.ResourceCheckPoint (some "response") (some (.msg "checkpoint failed")) ∈
      checkpointErrorRun.trace ∧
    checkpointErrorRun.res = some "response" ∧
    checkpointErrorRun.err = none ∧
    ∃ cperr, Step.ResourceCheckPoint (some "response") cperr ∈ checkpointErrorRun.trace :=
  ⟨by decide, by decide,
    InterceptRuntimeRequest_backend_success _ _ _ _ _ "request+hook response"
      (some "response") (by decide)⟩

/-- In every run the deferred `DeleteCheckpointIfNeed` is the last call
recorded and the only one of its kind, and it is called on the request, whose
content is the one passed in unless `UpdateRequest` rewrote it. -/
theorem intercept_delete_last {σ V : Type}
    (c : Collaborators σ V) (serviceType : RuntimeServiceType) (request : V)
    (handler : UnaryHandler σ V) (s : σ) :
    ∃ init r,
      (InterceptRuntimeRequest c serviceType request handler s).trace =
        init ++ [.DeleteCheckpointIfNeed r] ∧
      (∀ x ∈ init, x.kind ≠ .DeleteCheckpointIfNeed) ∧
      (r = request ∨ ∃ rsp uerr, Step.UpdateRequest rsp request uerr ∈ init) := by
  obtain ⟨op, perr2, h⟩ := intercept_shape c serviceType request handler s
  rcases h with ⟨hr2, rsp2, e2, hop, htr, hres, herr⟩ |
    ⟨pre, r2, res2, err2, cp, post, htr, hres, herr, hpre2, hcp, hpost⟩
  · exact ⟨[.ParseRequest request op perr2,
        .Dispatch (getRuntimeHookInfo serviceType).1 .PreHook hr2 rsp2 (some e2) .PolicyFail],
      request, by rw [htr]; rfl, by simp [Step.kind], Or.inl rfl⟩
  · refine ⟨.ParseRequest request op perr2 :: (pre ++ (.handler r2 res2 err2 :: cp) ++ post),
      r2, by rw [htr]; simp, ?_, ?_⟩
    · rcases hpre2 with ⟨_, rfl, rfl⟩ | ⟨_, rfl, hr3, rsp3, derr, pol3, rfl, _, _⟩ |
        ⟨_, hr3, rsp3, pol3, uerr, rfl⟩ <;>
      rcases hcp with ⟨rfl, cperr, rfl⟩ | ⟨hne, rfl⟩ <;>
      rcases hpost with ⟨_, hr4, rsp4, e4, pol4, rfl⟩ | ⟨_, rfl⟩ <;>
      simp [Step.kind]
    · rcases hpre2 with ⟨_, rfl, rfl⟩ | ⟨_, rfl, hr3, rsp3, derr, pol3, rfl, _, _⟩ |
        ⟨_, hr3, rsp3, pol3, uerr, rfl⟩
      · exact Or.inl rfl
      · exact Or.inl rfl
      · exact Or.inr ⟨rsp3, uerr, by simp⟩

/-- The body of the pipeline does not call `DeleteCheckpointIfNeed`: it is the
same for every implementation of that method. -/
theorem interceptBody_replaceDeleteCheckpointIfNeed {σ V : Type} (c : Collaborators σ V)
    (ex : Executor σ V) (del : V → σ → σ) (p : RuntimeRequestPath)
    (op : CallHookPluginOperation) (request : V) (handler : UnaryHandler σ V) (s : σ) :
    interceptBody (replaceDeleteCheckpointIfNeed c del)
        { ex with DeleteCheckpointIfNeed := del } p op request handler s =
      interceptBody c ex p op request handler s := rfl

/-- The body of the pipeline when the pre-hook `Dispatch` returned an error
with `PolicyFail`: it returns at once, in the state the `Dispatch` left, with
the request as it was passed in. -/
theorem interceptBody_aborted {σ V : Type} (c : Collaborators σ V) (ex : Executor σ V)
    (p : RuntimeRequestPath) (op : CallHookPluginOperation) (request : V)
    (handler : UnaryHandler σ V) (s : σ)
    (path : RuntimeRequestPath) (hr rsp : Option V) (e : GoError)
    (hpre : Step.Dispatch path .PreHook hr rsp (some e) .PolicyFail ∈
      (interceptBody c ex p op request handler s).trace) :
    op = .ShouldCallHookPlugin ∧
    interceptBody c ex p op request handler s =
      { returned := some (none, some (.hookServer e)), request := request,
        state := (c.Dispatch p .PreHook (ex.GenerateHookRequest s) s).2,
        trace := [.Dispatch path .PreHook hr rsp (some e) .PolicyFail] } := by
  cases op with
  | Unknown =>
    exfalso
    simp only [interceptBody, preHookStage] at hpre
    obtain ⟨s1, cp, hb, hcp⟩ := backendStage_handler ex handler request s
    rw [hb] at hpre
    rcases hcp with rfl | ⟨cperr, rfl⟩ <;> simp [postHookStage] at hpre
  | ShouldNotCallHookPlugin =>
    exfalso
    simp only [interceptBody, preHookStage] at hpre
    obtain ⟨s1, cp, hb, hcp⟩ := backendStage_handler ex handler request s
    rw [hb] at hpre
    rcases hcp with rfl | ⟨cperr, rfl⟩ <;> simp [postHookStage] at hpre
  | ShouldCallHookPlugin =>
    refine ⟨rfl, ?_⟩
    simp only [interceptBody, preHookStage] at hpre ⊢
    generalize c.Dispatch p .PreHook (ex.GenerateHookRequest s) s = d at hpre ⊢
    obtain ⟨⟨rsp2, derr, pol2⟩, s2⟩ := d
    cases derr with
    | none =>
      exfalso
      cases rsp2 with
      | none =>
        dsimp only at hpre
        obtain ⟨s1, cp, hb, hcp⟩ := backendStage_handler ex handler request s2
        rw [hb] at hpre
        rcases hcp with rfl | ⟨cperr, rfl⟩ <;> simp [postHookStage] at hpre
      | some r2 =>
        dsimp only at hpre
        obtain ⟨s1, cp, hb, hcp⟩ := backendStage_handler ex handler
          (ex.UpdateRequest r2 request s2).1.2 (ex.UpdateRequest r2 request s2).2
        rw [hb] at hpre
        rcases hcp with rfl | ⟨cperr, rfl⟩ <;> simp [postHookStage] at hpre
    | some e2 =>
      cases pol2 with
      | PolicyFail =>
        simp at hpre
        obtain ⟨h1, h2, h3, h4⟩ := hpre
        subst h1 h2 h3 h4
        rfl
      | PolicyIgnore =>
        exfalso
        dsimp only at hpre
        simp only [reduceCtorEq, if_false] at hpre
        obtain ⟨s1, cp, hb, hcp⟩ := backendStage_handler ex handler request s2
        rw [hb] at hpre
        rcases hcp with rfl | ⟨cperr, rfl⟩ <;> simp [postHookStage] at hpre

/-- C19: in every run, whatever the outcome, the deferred
`DeleteCheckpointIfNeed` is executed exactly once, after every other call: it
is the last call recorded and the only one of its kind, it is called on the
request, whose content is the one passed in unless `UpdateRequest` rewrote it,
and the state the run leaves is what this one call makes of the state the other
calls left, which is the same for every implementation of
`DeleteCheckpointIfNeed`.  In particular, when the pre-hook `Dispatch` returned
an error with `PolicyFail`, the run is ParseRequest, that `Dispatch` and the
deletion, executed on the request passed in and on the state the `Dispatch`
left. -/
theorem InterceptRuntimeRequest_delete_last {σ V : Type}
    (c : Collaborators σ V) (serviceType : RuntimeServiceType) (request : V)
    (handler : UnaryHandler σ V) (s : σ) :
    (∃ init r s0,
      (InterceptRuntimeRequest c serviceType request handler s).trace =
        init ++ [.DeleteCheckpointIfNeed r] ∧
      (InterceptRuntimeRequest c serviceType request handler s).state =
        (c.NewRuntimeResourceExecutor (getRuntimeHookInfo serviceType).2).DeleteCheckpointIfNeed
          r s0 ∧
      (∀ del : V → σ → σ,
        (InterceptRuntimeRequest (replaceDeleteCheckpointIfNeed c del) serviceType request
          handler s).trace = init ++ [.DeleteCheckpointIfNeed r] ∧
        (InterceptRuntimeRequest (replaceDeleteCheckpointIfNeed c del) serviceType request
          handler s).state = del r s0) ∧
      (∀ x ∈ init, x.kind ≠ .DeleteCheckpointIfNeed) ∧
      (r = request ∨ ∃ rsp uerr, Step.UpdateRequest rsp request uerr ∈ init)) ∧
    (∀ (path : RuntimeRequestPath) (hr rsp : Option V) (e : GoError),
      Step.Dispatch path .PreHook hr rsp (some e) .PolicyFail ∈
        (InterceptRuntimeRequest c serviceType request handler s).trace →
      (InterceptRuntimeRequest c serviceType request handler s).trace =
        [.ParseRequest request .ShouldCallHookPlugin
            ((c.NewRuntimeResourceExecutor (getRuntimeHookInfo serviceType).2).ParseRequest
              request s).1.2,
          .Dispatch path .PreHook hr rsp (some e) .PolicyFail,
          .DeleteCheckpointIfNeed request] ∧
      (InterceptRuntimeRequest c serviceType request handler s).state =
        (c.NewRuntimeResourceExecutor (getRuntimeHookInfo serviceType).2).DeleteCheckpointIfNeed
          request
          (c.Dispatch (getRuntimeHookInfo serviceType).1 .PreHook
            ((c.NewRuntimeResourceExecutor
              (getRuntimeHookInfo serviceType).2).GenerateHookRequest
              ((c.NewRuntimeResourceExecutor (getRuntimeHookInfo serviceType).2).ParseRequest
                request s).2)
            ((c.NewRuntimeResourceExecutor (getRuntimeHookInfo serviceType).2).ParseRequest
              request s).2).2) := by
  constructor
  · obtain ⟨init, r, htr, hno, hr⟩ := intercept_delete_last c serviceType request handler s
    have hdef : (InterceptRuntimeRequest c serviceType request handler s).trace =
        (Step.ParseRequest request
            ((c.NewRuntimeResourceExecutor (getRuntimeHookInfo serviceType).2).ParseRequest
              request s).1.1
            ((c.NewRuntimeResourceExecutor (getRuntimeHookInfo serviceType).2).ParseRequest
              request s).1.2 ::
          (interceptBody c (c.NewRuntimeResourceExecutor (getRuntimeHookInfo serviceType).2)
            (getRuntimeHookInfo serviceType).1
            ((c.NewRuntimeResourceExecutor (getRuntimeHookInfo serviceType).2).ParseRequest
              request s).1.1 request handler
            ((c.NewRuntimeResourceExecutor (getRuntimeHookInfo serviceType).2).ParseRequest
              request s).2).trace) ++
        [.DeleteCheckpointIfNeed
          (interceptBody c (c.NewRuntimeResourceExecutor (getRuntimeHookInfo serviceType).2)
            (getRuntimeHookInfo serviceType).1
            ((c.NewRuntimeResourceExecutor (getRuntimeHookInfo serviceType).2).ParseRequest
              request s).1.1 request handler
            ((c.NewRuntimeResourceExecutor (getRuntimeHookInfo serviceType).2).ParseRequest
              request s).2).request] := rfl
    rw [htr] at hdef
    obtain ⟨hinit, hlast⟩ := List.append_inj' hdef rfl
    simp only [List.cons.injEq, Step.DeleteCheckpointIfNeed.injEq, and_true] at hlast
    refine ⟨init, r,
      (interceptBody c (c.NewRuntimeResourceExecutor (getRuntimeHookInfo serviceType).2)
        (getRuntimeHookInfo serviceType).1
        ((c.NewRuntimeResourceExecutor (getRuntimeHookInfo serviceType).2).ParseRequest
          request s).1.1 request handler
        ((c.NewRuntimeResourceExecutor (getRuntimeHookInfo serviceType).2).ParseRequest
          request s).2).state, htr, ?_, ?_, hno, hr⟩
    · rw [hlast]
      rfl
    · intro del
      rw [hinit, hlast]
      exact ⟨rfl, rfl⟩
  · intro path hr rsp e hpre
    simp only [InterceptRuntimeRequest] at hpre ⊢
    generalize c.NewRuntimeResourceExecutor (getRuntimeHookInfo serviceType).2 = ex at hpre ⊢
    generalize (getRuntimeHookInfo serviceType).1 = p at hpre ⊢
    generalize ex.ParseRequest request s = pr at hpre ⊢
    obtain ⟨⟨op, perr⟩, s1⟩ := pr
    dsimp only at hpre ⊢
    have hpre2 : Step.Dispatch path .PreHook hr rsp (some e) .PolicyFail ∈
        (interceptBody c ex p op request handler s1).trace := by
      simp at hpre
      exact hpre
    obtain ⟨hop, hbody⟩ := interceptBody_aborted c ex p op request handler s1 path hr rsp e hpre2
    rw [hbody, hop]
    exact ⟨rfl, rfl⟩

/-- Witness for C19: a StopPodSandbox of `pod1` that the pre-hook plugin
aborts with `PolicyFail`, on a store that holds checkpoints of `pod1` and
`pod2`: the deletion is the last of the three calls and the store holds only
the checkpoint of `pod2` afterwards. -/
theorem InterceptRuntimeRequest_delete_last_witness :
    Step.Dispatch .StopPodSandbox .PreHook (some "hook request") none (some pluginError)
      .PolicyFail ∈ storeAbortedRun.trace ∧
    storeAbortedRun.err = some (.hookServer pluginError) ∧
    storeAbortedRun.trace =
      [.ParseRequest "pod1" .ShouldCallHookPlugin none,
        .Dispatch .StopPodSandbox .PreHook (some "hook request") none (some pluginError)
          .PolicyFail,
        .DeleteCheckpointIfNeed "pod1"] ∧
    storeAbortedRun.state = ["pod2"] :=
  ⟨by decide, by decide,
    (InterceptRuntimeRequest_delete_last storeCollaborators .StopPodSandbox "pod1"
      (fun _ s => ((some "response", none), s)) ["pod1", "pod2"]).2 .StopPodSandbox
      (some "hook request") none pluginError (by decide)⟩

/-- C20: in every run the calls that belong to ParseRequest, the pre-hook
`Dispatch`, the backend handler, `ResourceCheckPoint` and the post-hook
`Dispatch` form a sublist of these five steps in this order: each occurs at
most once, and those that occur keep this relative order. -/
theorem InterceptRuntimeRequest_step_order {σ V : Type}
    (c : Collaborators σ V) (serviceType : RuntimeServiceType) (request : V)
    (handler : UnaryHandler σ V) (s : σ) :
    List.Sublist
      (((InterceptRuntimeRequest c serviceType request handler s).trace.map Step.kind).filter
        (fun k => decide (k ∈ pipelineOrder)))
      pipelineOrder := by
  obtain ⟨op, perr2, h⟩ := intercept_shape c serviceType request handler s
  rcases h with ⟨hr2, rsp2, e2, hop, htr, hres, herr⟩ |
    ⟨pre, r2, res2, err2, cp, post, htr, hres, herr, hpre2, hcp, hpost⟩
  · rw [htr]
    simp only [List.map, Step.kind]
    decide
  · rw [htr]
    rcases hpre2 with ⟨_, rfl, rfl⟩ | ⟨_, rfl, hr3, rsp3, derr, pol3, rfl, _, _⟩ |
      ⟨_, hr3, rsp3, pol3, uerr, rfl⟩ <;>
    rcases hcp with ⟨rfl, cperr, rfl⟩ | ⟨hne, rfl⟩ <;>
    rcases hpost with ⟨_, hr4, rsp4, e4, pol4, rfl⟩ | ⟨_, rfl⟩ <;>
    simp only [List.map, Step.kind, List.append_eq, List.cons_append, List.nil_append,
      List.map_cons, List.map_nil, List.map_append] <;>
    decide

/-- C21: when a run reached the backend handler, the response and the error
it returns are those the handler returned, whatever the post-hook `Dispatch`
returns; the statement holds for every dispatcher, one whose post-hook call
returns an error with `PolicyFail` included. -/
theorem InterceptRuntimeRequest_postHook_best_effort {σ V : Type}
    (c : Collaborators σ V) (serviceType : RuntimeServiceType) (request : V)
    (handler : UnaryHandler σ V) (s : σ) (r : V) (res : Option V) (err : Option GoError)
    (hh : Step.handler r res err ∈
      (InterceptRuntimeRequest c serviceType request handler s).trace) :
    (InterceptRuntimeRequest c serviceType request handler s).res = res ∧
    (InterceptRuntimeRequest c serviceType request handler s).err = err := by
  obtain ⟨op, perr2, h⟩ := intercept_shape c serviceType request handler s
  rcases h with ⟨hr2, rsp2, e2, hop, htr, hres, herr⟩ |
    ⟨pre, r2, res2, err2, cp, post, htr, hres, herr, hpre2, hcp, hpost⟩
  · exfalso
    rw [htr] at hh
    simp at hh
  · rw [htr] at hh
    rw [hres, herr]
    rcases hpre2 with ⟨_, rfl, rfl⟩ | ⟨_, rfl, hr3, rsp3, derr, pol3, rfl, _, _⟩ |
      ⟨_, hr3, rsp3, pol3, uerr, rfl⟩ <;>
    rcases hcp with ⟨rfl, cperr, rfl⟩ | ⟨_, rfl⟩ <;>
    rcases hpost with ⟨_, hr4, rsp4, e4, pol4, rfl⟩ | ⟨_, rfl⟩ <;>
    simp at hh <;>
    (obtain ⟨-, rfl, rfl⟩ := hh; exact ⟨rfl, rfl⟩)

/-- Witness for C21: a CreateContainer whose post-hook `Dispatch` returns a
response and an error with `PolicyFail`. -/
theorem InterceptRuntimeRequest_postHook_best_effort_witness :
    Step.handler "request" (some "response") none ∈ postHookErrorRun.trace ∧
    Step.Dispatch .CreateContainer .PostHook (some "hook request") (some "post response")
      (some pluginError) .PolicyFail ∈ postHookErrorRun.trace ∧
    postHookErrorRun.res = some "response" ∧ postHookErrorRun.err = none :=
  ⟨by decide, by decide,
    InterceptRuntimeRequest_postHook_best_effort _ _ _ _ _ "request" (some "response") none
      (by decide)⟩

/-! ## Relations between the merges -/

/-- Merging the same map in twice is merging it in once. -/
theorem MergeMap_idem (a b : StringMap) : MergeMap (MergeMap a b) b = MergeMap a b := by
  apply Finmap.ext_lookup
  intro k
  rw [MergeMap_lookup, MergeMap_lookup]
  cases b.lookup k <;> simp

/-- C27: the two merges return nil exactly when the first operand is nil, and
otherwise return envelopes that agree on `CpuPeriod`, `CpuQuota`, `CpuShares`,
`MemoryLimitInBytes`, `MemorySwapLimitInBytes`, `Unified` and
`HugepageLimits`; only `OomScoreAdj`, `CpusetCpus` and `CpusetMems` are left
out of the agreement. -/
theorem updateResourceByUCR_agrees_with_updateResource
    (a b : Option LinuxContainerResources) :
    (updateResource a b = none ↔ a = none) ∧
    (updateResourceByUpdateContainerResourceRequest a b = none ↔ a = none) ∧
    (match updateResource a b, updateResourceByUpdateContainerResourceRequest a b with
      | some r, some u =>
        r.CpuPeriod = u.CpuPeriod ∧ r.CpuQuota = u.CpuQuota ∧ r.CpuShares = u.CpuShares ∧
        r.MemoryLimitInBytes = u.MemoryLimitInBytes ∧
        r.MemorySwapLimitInBytes = u.MemorySwapLimitInBytes ∧
        r.Unified = u.Unified ∧ r.HugepageLimits = u.HugepageLimits
      | none, none => True
      | _, _ => False) := by
  cases a with
  | none => cases b <;> simp [updateResource, updateResourceByUpdateContainerResourceRequest]
  | some a =>
    cases b with
    | none => simp [updateResource, updateResourceByUpdateContainerResourceRequest]
    | some b => simp [updateResource_some_some, updateResourceByUCR_some_some]

/-- C30: both merges are idempotent in their second argument, for nil and
non-nil operands alike. -/
theorem merges_idempotent (a b : Option LinuxContainerResources) :
    updateResource (updateResource a b) b = updateResource a b ∧
    updateResourceByUpdateContainerResourceRequest
        (updateResourceByUpdateContainerResourceRequest a b) b =
      updateResourceByUpdateContainerResourceRequest a b := by
  cases a with
  | none => cases b <;> exact ⟨rfl, rfl⟩
  | some a =>
    cases b with
    | none => exact ⟨rfl, rfl⟩
    | some b =>
      rw [updateResource_some_some, updateResourceByUCR_some_some,
        updateResource_some_some, updateResourceByUCR_some_some]
      simp only [Option.some.injEq, LinuxContainerResources.mk.injEq, MergeMap_idem,
        and_true, true_and]
      refine ⟨⟨?_, ?_, ?_, ?_, ?_, ?_⟩, ⟨?_, ?_, ?_, ?_, ?_, ?_, ?_⟩⟩ <;>
        split_ifs <;> rfl

/-! ## The RPC-kind table -/

/-- C28: `getRuntimeHookInfo` maps RunPodSandbox and StopPodSandbox to their
own hook path and the Pod resource kind, CreateContainer, StartContainer,
StopContainer and UpdateContainerResources to their own hook path and the
Container resource kind, and every other service type, RemoveContainer
included, to `NoneRuntimeHookPath` and the Noop resource kind; for those the
pipeline asks the factory for the Noop executor only, so its outcome does not
depend on the Pod and Container executors. -/
theorem getRuntimeHookInfo_table :
    getRuntimeHookInfo .RunPodSandbox = (.RunPodSandbox, .RuntimePodResource) ∧
    getRuntimeHookInfo .StopPodSandbox = (.StopPodSandbox, .RuntimePodResource) ∧
    getRuntimeHookInfo .CreateContainer = (.CreateContainer, .RuntimeContainerResource) ∧
    getRuntimeHookInfo .StartContainer = (.StartContainer, .RuntimeContainerResource) ∧
    getRuntimeHookInfo .StopContainer = (.StopContainer, .RuntimeContainerResource) ∧
    getRuntimeHookInfo .UpdateContainerResources =
      (.UpdateContainerResources, .RuntimeContainerResource) ∧
    getRuntimeHookInfo .RemoveContainer = (.NoneRuntimeHookPath, .RuntimeNoopResource) ∧
    (∀ st : RuntimeServiceType,
      st ≠ .RunPodSandbox → st ≠ .StopPodSandbox → st ≠ .CreateContainer →
      st ≠ .StartContainer → st ≠ .StopContainer → st ≠ .UpdateContainerResources →
      getRuntimeHookInfo st = (.NoneRuntimeHookPath, .RuntimeNoopResource)) ∧
    (∀ (σ V : Type) (c d : Collaborators σ V) (st : RuntimeServiceType) (request : V)
      (handler : UnaryHandler σ V) (s : σ),
      getRuntimeHookInfo st = (.NoneRuntimeHookPath, .RuntimeNoopResource) →
      c.Dispatch = d.Dispatch →
      c.NewRuntimeResourceExecutor .RuntimeNoopResource =
        d.NewRuntimeResourceExecutor .RuntimeNoopResource →
      InterceptRuntimeRequest c st request handler s =
        InterceptRuntimeRequest d st request handler s) := by
  refine ⟨rfl, rfl, rfl, rfl, rfl, rfl, rfl, ?_, ?_⟩
  · intro st h1 h2 h3 h4 h5 h6
    cases st <;> first | rfl | contradiction
  · intro σ V c d st request handler s hinfo hd hex
    simp only [InterceptRuntimeRequest, interceptBody, preHookStage, postHookStage, hinfo, hd,
      hex]

/-- Witness for C28: RemoveContainer and a service type for RemovePodSandbox
on two sets of collaborators that differ in their Pod and Container
executors. -/
theorem getRuntimeHookInfo_table_witness :
    getRuntimeHookInfo (.Other "RemovePodSandbox") =
      (.NoneRuntimeHookPath, .RuntimeNoopResource) ∧
    InterceptRuntimeRequest (noopOnlyCollaborators .ShouldCallHookPlugin .Unknown)
        .RemoveContainer "request" (demoHandler (some "response", none)) 0 =
      InterceptRuntimeRequest (noopOnlyCollaborators .ShouldCallHookPlugin
        .ShouldNotCallHookPlugin) .RemoveContainer "request"
        (demoHandler (some "response", none)) 0 :=
  ⟨getRuntimeHookInfo_table.2.2.2.2.2.2.2.1 _ (by decide) (by decide) (by decide)
      (by decide) (by decide) (by decide),
    getRuntimeHookInfo_table.2.2.2.2.2.2.2.2 _ _ _ _ _ _ _ _ rfl rfl rfl⟩

/-! ## The static type map -/

/-- Every entry of the static type map pairs the v1alpha2 type and the v1 type
of one and the same name. -/
theorem typeMapperEntries_same_name :
    ∀ kv ∈ typeMapperEntries, ∃ n, kv = (v1alpha2Type n, v1Type n) := by
  intro kv h
  simp only [typeMapperEntries, List.mem_cons, List.mem_singleton, List.not_mem_nil, or_false] at h
  rcases h with h | h | h | h | h | h | h | h | h | h | h | h | h | h | h | h | h | h | h | h |
    h | h | h | h | h | h | h | h | h | h | h | h | h | h | h | h | h | h | h | h |
    h | h | h | h | h | h | h | h | h | h | h | h | h | h | h | h | h | h | h | h | h | h | h <;>
  exact ⟨_, h⟩

/-- A successful lookup in the static type map returns an entry of the map
literal. -/
theorem typeMapper_some_mem (e out : GoType) (h : typeMapper e = some out) :
    (e, out) ∈ typeMapperEntries := by
  unfold typeMapper at h
  obtain ⟨kv, hfind, rfl⟩ := Option.map_eq_some'.mp h
  have hmem := List.mem_of_find?_eq_some hfind
  have hkey := List.find?_some hfind
  simp only [decide_eq_true_eq] at hkey
  subst hkey
  exact hmem

/-- C29: a v1alpha2 type that the static type map lists is mapped to the v1
type of the same name, no other listed type is mapped to that v1 type, and a
conversion of a non-nil pointer to it returns, and when it returns no error it
returns a pointer whose element type is the mapped v1 type. -/
theorem typeMapper_bijective (Marshal : Iface → Except GoError (List Nat))
    (Unmarshal : GoType → List Nat → Option GoError) (e out : GoType)
    (h : typeMapper e = some out) :
    (∃ n, e = v1alpha2Type n ∧ out = v1Type n) ∧
    (∀ e2, typeMapper e2 = some out → e2 = e) ∧
    (∃ r, V1alpha2ToV1 Marshal Unmarshal (.typed e.pointerTo false) = some r ∧
      (r.2 = none → r.1 = .typed out.pointerTo false)) := by
  obtain ⟨n, hn⟩ := typeMapperEntries_same_name _ (typeMapper_some_mem e out h)
  obtain ⟨rfl, rfl⟩ := Prod.mk.inj hn
  refine ⟨⟨n, rfl, rfl⟩, ?_, ?_⟩
  · intro e2 h2
    obtain ⟨m, hm⟩ := typeMapperEntries_same_name _ (typeMapper_some_mem e2 _ h2)
    obtain ⟨rfl, hv⟩ := Prod.mk.inj hm
    simp only [v1Type, GoType.nonPtr.injEq, true_and] at hv
    rw [hv]
  · have hne := v1PkgPath_ne_v1alpha2PkgPath
    simp only [V1alpha2ToV1, IsV1Type, implementsMarshaler, GoType.pointerTo, GoType.Kind,
      GoType.Elem, v1alpha2Type, GoType.PkgPath]
    simp only [v1alpha2Type] at h
    simp only [h, hne.symm, beq_iff_eq, if_false, ne_eq, not_true_eq_false, if_true,
      reduceCtorEq, decide_True]
    cases hc : ConvertByMarshal
        (Marshal (.typed (.ptr "" "" (.nonPtr v1alpha2PkgPath n)) false))
        (Unmarshal (v1Type n)) with
    | none => exact ⟨_, rfl, fun _ => rfl⟩
    | some err => exact ⟨_, rfl, fun herr => by simp at herr⟩

/-- Witness for C29 on `v1alpha2.AttachRequest`, with a wire conversion that
succeeds. -/
theorem typeMapper_bijective_witness :
    typeMapper v1alpha2AttachRequest = some v1AttachRequest ∧
    (∃ n, v1alpha2AttachRequest = v1alpha2Type n ∧ v1AttachRequest = v1Type n) ∧
    (∀ e2, typeMapper e2 = some v1AttachRequest → e2 = v1alpha2AttachRequest) ∧
    (∃ r, V1alpha2ToV1 marshalOk unmarshalOk (.typed v1alpha2AttachRequest.pointerTo false) =
        some r ∧ (r.2 = none → r.1 = .typed v1AttachRequest.pointerTo false)) :=
  ⟨by decide, typeMapper_bijective marshalOk unmarshalOk _ _ (by decide)⟩

/-! ## Startup -/

/-- C22: with both dials successful and no server field set beforehand,
`initBackendServer` returns no error exactly when none of the probes it called
returned an error other than Unimplemented, the runtime probe of at least one
version succeeded and the image probe of at least one version succeeded; then
the server fields that are set are exactly those whose probe succeeded, and a
`Run` that comes to serve registers exactly these surfaces. -/
theorem initBackendServer_succeeds_iff (probe : Probe → ProbeOutcome) :
    ((initBackendServer none none probe NewRuntimeManagerCriServer).err = none ↔
      (∀ p ∈ (initBackendServer none none probe NewRuntimeManagerCriServer).probes,
        ∀ e, probe p ≠ .failed e) ∧
      (probe .V1Version = .ok ∨ probe .V1alpha2Version = .ok) ∧
      (probe .V1ImageFsInfo = .ok ∨ probe .V1alpha2ImageFsInfo = .ok)) ∧
    ((initBackendServer none none probe NewRuntimeManagerCriServer).err = none →
      (initBackendServer none none probe NewRuntimeManagerCriServer).server =
        { runtimeServerV1 := decide (probe .V1Version = .ok)
          imageServerV1 := decide (probe .V1ImageFsInfo = .ok)
          runtimeServerV1alpha2 := decide (probe .V1alpha2Version = .ok)
          imageServerV1alpha2 := decide (probe .V1alpha2ImageFsInfo = .ok) }) ∧
    (∀ (P C PI CI : Type) (failover : FailoverEnv P C PI CI) (serve : Option GoError)
      (store : Store PI CI),
      (initBackendServer none none probe NewRuntimeManagerCriServer).err = none →
      (StartupStep.RegisterRuntimeV1 ∈ (Run NewRuntimeManagerCriServer
          { dialRuntime := none, dialImage := none, probe := probe, failover := failover,
            listen := none, serve := serve } store).steps ↔ probe .V1Version = .ok) ∧
      (StartupStep.RegisterImageV1 ∈ (Run NewRuntimeManagerCriServer
          { dialRuntime := none, dialImage := none, probe := probe, failover := failover,
            listen := none, serve := serve } store).steps ↔ probe .V1ImageFsInfo = .ok) ∧
      (StartupStep.RegisterRuntimeV1alpha2 ∈ (Run NewRuntimeManagerCriServer
          { dialRuntime := none, dialImage := none, probe := probe, failover := failover,
            listen := none, serve := serve } store).steps ↔ probe .V1alpha2Version = .ok) ∧
      (StartupStep.RegisterImageV1alpha2 ∈ (Run NewRuntimeManagerCriServer
          { dialRuntime := none, dialImage := none, probe := probe, failover := failover,
            listen := none, serve := serve } store).steps ↔
        probe .V1alpha2ImageFsInfo = .ok)) := by
  cases h1 : probe .V1Version <;> cases h2 : probe .V1ImageFsInfo <;>
    cases h3 : probe .V1alpha2Version <;> cases h4 : probe .V1alpha2ImageFsInfo <;>
    simp [Run, initBackendServer, initBackendServerV1, initBackendServerV1alpha2,
      NewRuntimeManagerCriServer, h1, h2, h3, h4]

/-- Witness for C22: the mixed-version backend of scenario 5. -/
theorem initBackendServer_succeeds_iff_witness :
    (initBackendServer none none probeV1alpha2Only NewRuntimeManagerCriServer).err = none ∧
    (initBackendServer none none probeV1alpha2Only NewRuntimeManagerCriServer).server =
      { runtimeServerV1 := decide (probeV1alpha2Only .V1Version = .ok)
        imageServerV1 := decide (probeV1alpha2Only .V1ImageFsInfo = .ok)
        runtimeServerV1alpha2 := decide (probeV1alpha2Only .V1alpha2Version = .ok)
        imageServerV1alpha2 := decide (probeV1alpha2Only .V1alpha2ImageFsInfo = .ok) } ∧
    (initBackendServer none none probeV1alpha2Only NewRuntimeManagerCriServer).server =
      { runtimeServerV1 := false, imageServerV1 := false,
        runtimeServerV1alpha2 := true, imageServerV1alpha2 := true } :=
  ⟨by decide, (initBackendServer_succeeds_iff probeV1alpha2Only).2.1 (by decide), by decide⟩

/-- C23, what the code does: when the failover listing returns an error,
`failOver` returns that error, and `Run`, which does not look at what
`failOver` returns, goes on to create its listener and to serve; the error
`Run` returns is the one of `Serve`. -/
theorem Run_continues_after_failOver_error {P C PI CI : Type}
    (c : RuntimeManagerCriServer) (env : RunEnv P C PI CI) (store : Store PI CI)
    (e : GoError)
    (hinit : (initBackendServer env.dialRuntime env.dialImage env.probe c).err = none)
    (hlist : (if (initBackendServer env.dialRuntime env.dialImage env.probe c).server.runtimeServerV1
        then listPodsAndContainersV1 env.failover
        else listPodsAndContainersV1alpha2 env.failover) = .error e)
    (hlisten : env.listen = none) :
    (failOver (initBackendServer env.dialRuntime env.dialImage env.probe c).server
      env.failover store).1 = some e ∧
    (Run c env store).err = env.serve ∧
    StartupStep.failOver (some e) ∈ (Run c env store).steps ∧
    StartupStep.Listen none ∈ (Run c env store).steps ∧
    StartupStep.Serve env.serve ∈ (Run c env store).steps := by
  have hfo : (failOver (initBackendServer env.dialRuntime env.dialImage env.probe c).server
      env.failover store).1 = some e := by
    simp only [failOver, hlist]
  refine ⟨hfo, ?_⟩
  simp [Run, hinit, hlisten, hfo]

/-- Witness for C23: a backend that supports both versions and whose v1
ListPodSandbox fails; the startup returns no error and serves. -/
theorem Run_continues_after_failOver_error_witness :
    listFailsRun.err = none ∧
    StartupStep.failOver (some (.msg "list failed")) ∈ listFailsRun.steps ∧
    StartupStep.Listen none ∈ listFailsRun.steps ∧
    StartupStep.Serve none ∈ listFailsRun.steps :=
  (Run_continues_after_failOver_error NewRuntimeManagerCriServer
    { dialRuntime := none, dialImage := none, probe := probeAllOk,
      failover := listFailsEnv, listen := none, serve := none }
    emptyStore (.msg "list failed") (by decide) rfl rfl).2

/-- The container loop of `failOver` leaves the pod records as they are. -/
theorem foldl_checkpointContainer_pods {P C PI CI : Type} (env : FailoverEnv P C PI CI)
    (cs : List C) (store : Store PI CI) :
    (cs.foldl (checkpointContainer env) store).pods = store.pods := by
  induction cs generalizing store with
  | nil => rfl
  | cons x xs ih =>
    rw [List.foldl_cons, ih]
    unfold checkpointContainer
    split <;> rfl

/-- C24, as stated, fails: on the mixed-version backend that lists three pods,
a failure of the conversion to v1 makes `failOver` return the error without
writing any record: the store holds neither pod #1 nor pod #3 afterwards. -/
theorem failOver_conversion_failure_stores_nothing :
    StartupStep.failOver (some (.msg "cannot convert")) ∈ conversionFailsRun.steps ∧
    conversionFailsRun.store.pods.lookup "pod1" = none ∧
    conversionFailsRun.store.pods.lookup "pod3" = none := by
  decide

/-- C24, amended: in failover an entry that fails to parse is skipped and the
others are written: when the listing holds three pods and parsing pod #2
fails, `failOver` returns no error and the store afterwards holds the records
of pods #1 and #3 and, for pod #2, what it held before.  A failure of the
version conversion is not per entry: it fails the listing as a whole, and
`failOver` returns its error and leaves the store as it was. -/
theorem failOver_skips_unparsable_entry :
    (∀ {P C PI CI : Type} (c : RuntimeManagerCriServer) (env : FailoverEnv P C PI CI)
      (store : Store PI CI) (p1 p2 p3 : P) (cs : List C) (i1 i3 : PI) (e : GoError),
      (if c.runtimeServerV1 then listPodsAndContainersV1 env
        else listPodsAndContainersV1alpha2 env) = .ok ([p1, p2, p3], cs) →
      env.ParsePod p1 = .ok i1 → env.ParsePod p2 = .error e → env.ParsePod p3 = .ok i3 →
      env.podId p1 ≠ env.podId p3 → env.podId p2 ≠ env.podId p1 →
      env.podId p2 ≠ env.podId p3 →
      (failOver c env store).1 = none ∧
      (failOver c env store).2.pods.lookup (env.podId p1) = some i1 ∧
      (failOver c env store).2.pods.lookup (env.podId p3) = some i3 ∧
      (failOver c env store).2.pods.lookup (env.podId p2) =
        store.pods.lookup (env.podId p2)) ∧
    (∀ {P C PI CI : Type} (c : RuntimeManagerCriServer) (env : FailoverEnv P C PI CI)
      (store : Store PI CI) (pods : List P) (v : Iface) (e : GoError),
      c.runtimeServerV1 = false → env.ListPodSandboxV1alpha2 = .ok pods →
      V1alpha2ToV1 env.Marshal env.Unmarshal
        (.typed (v1alpha2Type "ListPodSandboxResponse").pointerTo false) = some (v, some e) →
      failOver c env store = (some e, store)) := by
  constructor
  · intro P C PI CI c env store p1 p2 p3 cs i1 i3 e hl h1 h2 h3 h13 h21 h23
    simp only [failOver, hl, foldl_checkpointContainer_pods]
    simp [checkpointPod, h1, h2, h3, Finmap.lookup_insert, Finmap.lookup_insert_of_ne,
      h13, h21, h23]
  · intro P C PI CI c env store pods v e hc hlist hconv
    simp [failOver, hc, listPodsAndContainersV1alpha2, hlist, hconv]

/-- Witness for the amended C24: the mixed-version backend lists three pods of
which `pod2` fails to parse; and the same listing with a conversion that
fails. -/
theorem failOver_skips_unparsable_entry_witness :
    ((failOver v1alpha2OnlyServer (threePodsEnv unmarshalOk) emptyStore).1 = none ∧
      (failOver v1alpha2OnlyServer (threePodsEnv unmarshalOk) emptyStore).2.pods.lookup
        "pod1" = some "pod1" ∧
      (failOver v1alpha2OnlyServer (threePodsEnv unmarshalOk) emptyStore).2.pods.lookup
        "pod3" = some "pod3" ∧
      (failOver v1alpha2OnlyServer (threePodsEnv unmarshalOk) emptyStore).2.pods.lookup
        "pod2" = emptyStore.pods.lookup "pod2") ∧
    failOver v1alpha2OnlyServer (threePodsEnv unmarshalFails) emptyStore =
      (some (.msg "cannot convert"), emptyStore) :=
  ⟨failOver_skips_unparsable_entry.1 v1alpha2OnlyServer (threePodsEnv unmarshalOk) emptyStore
      "pod1" "pod2" "pod3" ["container1"] "pod1" "pod3" (.msg "corrupt pod")
      rfl rfl rfl rfl (by decide) (by decide) (by decide),
    failOver_skips_unparsable_entry.2 v1alpha2OnlyServer (threePodsEnv unmarshalFails)
      emptyStore ["pod1", "pod2", "pod3"]
      (.typed (v1alpha2Type "ListPodSandboxResponse").pointerTo false) (.msg "cannot convert")
      (by decide) rfl (by decide)⟩

/-! ## Range loops -/

/-- A range loop whose body, at the entry of key `k`, changes the lookup of
`k` only, and does so as a function of that lookup: afterwards a key that the
loop did not visit reads as before, and a key that it visited reads as after
the body run on the initial map. -/
theorem rangeLoop_lookup {α γ R : Type} (look : R → String → Option γ)
    (step : R → (Σ _ : String, α) → R)
    (h1 : ∀ r e k, k ≠ e.1 → look (step r e) k = look r k)
    (h2 : ∀ r r2 e, look r e.1 = look r2 e.1 → look (step r e) e.1 = look (step r2 e) e.1)
    (l : List (Σ _ : String, α)) (hl : l.NodupKeys) (init : R) (k : String) :
    look (l.foldl step init) k =
      match l.dlookup k with
      | none => look init k
      | some v => look (step init ⟨k, v⟩) k := by
  induction l generalizing init with
  | nil => simp
  | cons e l ih =>
    obtain ⟨hnot, hl2⟩ := List.nodupKeys_cons.mp hl
    rw [List.foldl_cons, ih hl2 (step init e)]
    by_cases hk : k = e.1
    · subst hk
      obtain ⟨k0, v0⟩ := e
      rw [List.dlookup_eq_none.mpr hnot, List.dlookup_cons_eq]
    · rw [List.dlookup_cons_ne _ e hk]
      cases l.dlookup k with
      | none => exact h1 init e k hk
      | some v => exact h2 _ _ ⟨k, v⟩ (h1 init e k hk)

/-- Appending one element per entry to a slice: the slice stays as it was when
there is no entry and holds the elements in order otherwise. -/
theorem foldl_goAppend {α β : Type} (f : α → β) (l : List α) (init : Option (List β)) :
    l.foldl (fun res e => goAppend res (f e)) init =
      if l.isEmpty then init else some (init.getD [] ++ l.map f) := by
  induction l generalizing init with
  | nil => simp
  | cons x xs ih =>
    rw [List.foldl_cons, ih]
    cases xs with
    | nil => simp [goAppend]
    | cons y ys => simp [goAppend]

/-- C25: for every map `m`, nil or not, and every order in which `range`
visits it, the expansion of `m` is the nil list when `m` is nil or empty and
otherwise holds one `KeyValue` per entry of `m`, in the order visited; and
flattening the expansion gives a map with exactly the entries of `m`, the empty
map when `m` is nil or empty. -/
theorem transferToKoordContainerEnvs_transferToCRIV1ContainerEnvs
    (m : Option (RangedMap String)) :
    transferToCRIV1ContainerEnvs m =
      (match m with
        | none => none
        | some a =>
          if a.entries.isEmpty then none
          else some (a.entries.map (fun e => some { Key := e.1, Value := e.2 }))) ∧
    transferToKoordContainerEnvs (transferToCRIV1ContainerEnvs m) =
      (match m with
        | none => ∅
        | some a => AList.toFinmap a) := by
  cases m with
  | none => exact ⟨rfl, rfl⟩
  | some a =>
    have hexp : transferToCRIV1ContainerEnvs (some a) =
        if a.entries.isEmpty then none
        else some (a.entries.map (fun e => some { Key := e.1, Value := e.2 })) := by
      simp only [transferToCRIV1ContainerEnvs]
      rw [foldl_goAppend (fun e : (Σ _ : String, String) =>
        (some { Key := e.1, Value := e.2 } : Option KeyValue))]
      simp
    refine ⟨hexp, ?_⟩
    apply Finmap.ext_lookup
    intro k
    rw [hexp, Finmap.lookup_toFinmap]
    cases hent : a.entries with
    | nil =>
      have hlook : a.lookup k = none := by
        simp [AList.lookup, hent]
      simp [transferToKoordContainerEnvs, hlook]
    | cons x xs =>
      rw [← hent]
      have hne : a.entries.isEmpty = false := by simp [hent]
      simp only [hne, Bool.false_eq_true, if_false, transferToKoordContainerEnvs,
        List.foldl_map, GetKey, GetValue]
      rw [rangeLoop_lookup (fun (r : StringMap) k => r.lookup k)
        (fun (res : StringMap) (e : (Σ _ : String, String)) => res.insert e.1 e.2)
        (fun r e k hk => Finmap.lookup_insert_of_ne r hk)
        (fun r r2 e _ => by simp [Finmap.lookup_insert])
        a.entries a.nodupKeys ∅ k]
      simp only [AList.lookup]
      cases a.entries.dlookup k with
      | none => simp
      | some v => simp [Finmap.lookup_insert]

/-! ## Resource lists -/

/-- Lookup in the result of `MinResourceList`: the smaller of the two
quantities for a name that both lists have, nothing for any other name. -/
theorem MinResourceList_lookup (a b : ResourceList) (k : String) :
    (MinResourceList a b).lookup k =
      match a.lookup k, b.lookup k with
      | some x, some y => some (min x y)
      | _, _ => none := by
  unfold MinResourceList
  rw [rangeLoop_lookup (fun (r : ResourceList) k => r.lookup k) _ _ _ a.entries a.nodupKeys ∅ k]
  · have hak : a.entries.dlookup k = a.lookup k := rfl
    rw [hak]
    cases a.lookup k with
    | none => simp
    | some x =>
      dsimp only
      cases b.lookup k with
      | none => rfl
      | some y =>
        dsimp only
        by_cases hxy : x ≥ y
        · rw [if_pos hxy, AList.lookup_insert, min_eq_right hxy]
        · rw [if_neg hxy, AList.lookup_insert, min_eq_left (le_of_lt (not_le.mp hxy))]
  · intro r e k hk
    beta_reduce
    cases b.lookup e.1 with
    | none => rfl
    | some other =>
      simp only
      split_ifs <;> exact AList.lookup_insert_ne hk
  · intro r r2 e h
    beta_reduce at h ⊢
    cases b.lookup e.1 with
    | none => exact h
    | some other =>
      simp only
      split_ifs <;> simp [AList.lookup_insert]

/-- Lookup after the two loops that `quotav1.Add`, `quotav1.Max` and
`quotav1.Subtract` share: a name of `a` reads as the first loop wrote it, a
name that only `b` has as the second loop wrote it. -/
theorem quotaLoops_lookup (f : Quantity → Option Quantity → Quantity)
    (g : Quantity → Quantity) (a b : ResourceList) (k : String) :
    (b.entries.foldl
      (fun (result : ResourceList) e =>
        match result.lookup e.1 with
        | some _ => result
        | none => result.insert e.1 (g e.2))
      (a.entries.foldl
        (fun (result : ResourceList) e => result.insert e.1 (f e.2 (b.lookup e.1)))
        ∅)).lookup k =
      match a.lookup k, b.lookup k with
      | some x, y => some (f x y)
      | none, some y => some (g y)
      | none, none => none := by
  have hfirst : (a.entries.foldl
      (fun (result : ResourceList) e => result.insert e.1 (f e.2 (b.lookup e.1)))
      ∅).lookup k =
      match a.lookup k with
      | some x => some (f x (b.lookup k))
      | none => none := by
    rw [rangeLoop_lookup (fun (r : ResourceList) k => r.lookup k) _ _ _
      a.entries a.nodupKeys ∅ k]
    · have hak : a.entries.dlookup k = a.lookup k := rfl
      rw [hak]
      cases a.lookup k with
      | none => rfl
      | some x =>
        dsimp only
        rw [AList.lookup_insert]
    · intro r e k hk
      exact AList.lookup_insert_ne hk
    · intro r r2 e _
      simp [AList.lookup_insert]
  rw [rangeLoop_lookup (fun (r : ResourceList) k => r.lookup k) _ _ _ b.entries b.nodupKeys _ k]
  · have hbk : b.entries.dlookup k = b.lookup k := rfl
    rw [hbk]
    dsimp only
    generalize (a.entries.foldl
      (fun (result : ResourceList) e => result.insert e.1 (f e.2 (b.lookup e.1)))
      ∅) = r1 at hfirst ⊢
    cases ha : a.lookup k with
    | none =>
      rw [ha] at hfirst
      cases hb : b.lookup k with
      | none => exact hfirst
      | some y =>
        dsimp only
        rw [hfirst]
        exact AList.lookup_insert _
    | some x =>
      rw [ha] at hfirst
      cases hb : b.lookup k with
      | none =>
        rw [hb] at hfirst
        exact hfirst
      | some y =>
        rw [hb] at hfirst
        dsimp only at hfirst ⊢
        rw [hfirst]
        exact hfirst
  · intro r e k hk
    beta_reduce
    cases r.lookup e.1 with
    | none => exact AList.lookup_insert_ne hk
    | some v => rfl
  · intro r r2 e h
    beta_reduce at h ⊢
    rw [← h]
    cases hr : r.lookup e.1 with
    | none => simp [AList.lookup_insert]
    | some v => simp [← h, hr]

/-- Lookup in the result of `quotav1.Add`. -/
theorem quotaAdd_lookup (a b : ResourceList) (k : String) :
    (quotaAdd a b).lookup k =
      match a.lookup k, b.lookup k with
      | some x, some y => some (x + y)
      | some x, none => some x
      | none, some y => some y
      | none, none => none := by
  have hbody : ∀ (result : ResourceList) (e : (Σ _ : String, Quantity)),
      (match b.lookup e.1 with
        | some other => result.insert e.1 (e.2 + other)
        | none => result.insert e.1 e.2) =
      result.insert e.1 (e.2 + (b.lookup e.1).getD 0) := by
    intro result e
    cases b.lookup e.1 <;> simp
  unfold quotaAdd
  simp only [hbody]
  rw [quotaLoops_lookup (fun x o => x + o.getD 0) (fun y => y)]
  cases a.lookup k <;> cases b.lookup k <;> simp

/-- Lookup in the result of `quotav1.Max`. -/
theorem quotaMax_lookup (a b : ResourceList) (k : String) :
    (quotaMax a b).lookup k =
      match a.lookup k, b.lookup k with
      | some x, some y => some (max x y)
      | some x, none => some x
      | none, some y => some y
      | none, none => none := by
  have hbody : ∀ (result : ResourceList) (e : (Σ _ : String, Quantity)),
      (match b.lookup e.1 with
        | some other =>
          if e.2 ≤ other then result.insert e.1 other else result.insert e.1 e.2
        | none => result.insert e.1 e.2) =
      result.insert e.1 (max e.2 ((b.lookup e.1).getD e.2)) := by
    intro result e
    cases b.lookup e.1 with
    | none => simp
    | some other =>
      by_cases h : e.2 ≤ other
      · simp [h]
      · simp [h, max_eq_left (le_of_lt (not_le.mp h))]
  unfold quotaMax
  simp only [hbody]
  rw [quotaLoops_lookup (fun x o => max x (o.getD x)) (fun y => y)]
  cases a.lookup k <;> cases b.lookup k <;> simp

/-- Lookup in the result of `quotav1.Subtract`. -/
theorem quotaSubtract_lookup (a b : ResourceList) (k : String) :
    (quotaSubtract a b).lookup k =
      match a.lookup k, b.lookup k with
      | some x, some y => some (x - y)
      | some x, none => some x
      | none, some y => some (-y)
      | none, none => none := by
  have hbody : ∀ (result : ResourceList) (e : (Σ _ : String, Quantity)),
      (match b.lookup e.1 with
        | some other => result.insert e.1 (e.2 - other)
        | none => result.insert e.1 e.2) =
      result.insert e.1 (e.2 - (b.lookup e.1).getD 0) := by
    intro result e
    cases b.lookup e.1 <;> simp
  unfold quotaSubtract
  simp only [hbody]
  rw [quotaLoops_lookup (fun x o => x - o.getD 0) (fun y => -y)]
  cases a.lookup k <;> cases b.lookup k <;> simp

/-- C26, as stated, fails: on the example of the doc comment the quota
expression holds the name `nvidia.com/gpu`, which only `b` has, with the
quantity 0, and the result of `MinResourceList` does not hold that name; on
`cpu` both hold 6. -/
theorem MinResourceList_differs_from_quota :
    (MinResourceList exampleA exampleB).lookup "nvidia.com/gpu" = none ∧
    (minByQuota exampleA exampleB).lookup "nvidia.com/gpu" = some 0 ∧
    (MinResourceList exampleA exampleB).lookup "cpu" = some 6 ∧
    (minByQuota exampleA exampleB).lookup "cpu" = some 6 := by
  decide

/-- C26, amended: the result of `MinResourceList` holds exactly the names that
both lists have, each with the smaller of the two quantities; the quota
expression `Subtract(Add(a, b), Max(a, b))` holds the same quantity for these
names and holds, in addition, every name that only one of the lists has, with
the quantity 0: the two results are equal up to entries of quantity zero. -/
theorem MinResourceList_refines_quota (a b : ResourceList) (k : String) :
    (MinResourceList a b).lookup k =
      (match a.lookup k, b.lookup k with
        | some x, some y => some (min x y)
        | _, _ => none) ∧
    (minByQuota a b).lookup k =
      (match a.lookup k, b.lookup k with
        | some x, some y => some (min x y)
        | none, none => none
        | _, _ => some 0) := by
  refine ⟨MinResourceList_lookup a b k, ?_⟩
  unfold minByQuota
  rw [quotaSubtract_lookup, quotaAdd_lookup, quotaMax_lookup]
  cases a.lookup k with
  | none =>
    cases b.lookup k with
    | none => rfl
    | some y => simp
  | some x =>
    cases b.lookup k with
    | none => simp
    | some y =>
      simp only [Option.some.injEq]
      rcases le_total x y with h | h
      · rw [max_eq_right h, min_eq_left h]
        exact add_sub_cancel_right x y
      · rw [max_eq_left h, min_eq_right h]
        exact add_sub_cancel_left x y

end Koordinator
